import Mathlib

/-!
# Storefront client (`frontend/app.js`): state synchronisation and view consistency

A shallow embedding of the browser script `frontend/app.js`.

* JavaScript numbers are IEEE-754 binary64 values.  A finite number is stored as
  the integer count of units of `2^-1074` (every finite double is such a multiple),
  and every arithmetic result is rounded to the nearest double, ties to even.
  The sign of zero is not tracked: no expression of the script can observe it
  (`toFixed` prints `0.00` for both zeros).
* The two globals `currentUser`, `currentCart`, the parts of the document the
  script writes, the pending `setTimeout` callbacks and the logs of the effects
  (requests, notifications, confirmation prompts, console lines) form `State`.
* The browser and the remote API form `Host`: one oracle per endpoint, which sees
  the whole request history and answers with a network error or a response
  (status class, body), the answer of `confirm`, and the library routines
  `Number::toString` and the locale date formatting, which are not modelled.
* Response bodies are typed by the interface contract of the API: a body is
  malformed JSON, a JSON object that carries none of the contract fields (an error
  object), or the payload of the contract.
* An `async` handler is run to completion without interleaving of other handlers.
  The elements looked up with `getElementById` exist in the document.
-/

set_option maxRecDepth 100000

namespace Storefront

/-! ## Numbers -/

/-- A JavaScript Number.  `fin u` is the finite value `u * 2^-1074`. -/
inductive JSNum where
  | fin (u : Int)
  | inf (negative : Bool)
  | nan
deriving DecidableEq, Repr

/-- Number of fractional bits of the unit: the smallest positive double is `2^-1074`. -/
def unitBits : Nat := 1074

/-- Number of binary digits of `n`, by halving (`fuel` bounds the number of halvings). -/
def bitLengthAux : Nat → Nat → Nat
  | 0, _ => 0
  | fuel + 1, n => if n = 0 then 0 else bitLengthAux fuel (n / 2) + 1

/-- Number of binary digits of `n` (`0` for `0`). -/
def bitLength (n : Nat) : Nat := bitLengthAux n n

/-- Spacing exponent of the doubles around a magnitude of `q` units: a significand
has 53 bits, so the doubles near `q` are the multiples of `2 ^ gridShift q` units. -/
def gridShift (q : Nat) : Nat := bitLength q - 53

/-- Nearest integer to `num / den`, ties to the even integer. -/
def roundNearestEven (num den : Nat) : Nat :=
  let q := num / den
  let r := num % den
  if 2 * r < den then q
  else if den < 2 * r then q + 1
  else if q % 2 = 0 then q else q + 1

/-- Nearest double, in units, to the magnitude `num / den` units. -/
def roundUnits (num den : Nat) : Nat :=
  let s := gridShift (num / den)
  roundNearestEven num (den * 2 ^ s) * 2 ^ s

/-- The Number nearest to the real `± (num / den) * 2^-1074`; a result of `2^1024`
or more overflows to an infinity. -/
def ofMagnitude (negative : Bool) (num den : Nat) : JSNum :=
  let u := roundUnits num den
  if u < 2 ^ 2098 then JSNum.fin (if negative then -(u : Int) else (u : Int))
  else JSNum.inf negative

/-- The Number denoted by the JSON literal `n / 10^k` (`ofDecimal 999 2` is `9.99`). -/
def ofDecimal (n k : Nat) : JSNum := ofMagnitude false (n * 2 ^ unitBits) (10 ^ k)

/-- The Number denoted by a natural-number literal. -/
def ofNat (n : Nat) : JSNum := ofDecimal n 0

/-- The operator `*` on Numbers. -/
def JSNum.mul : JSNum → JSNum → JSNum
  | .nan, _ => .nan
  | _, .nan => .nan
  | .fin a, .fin b =>
    ofMagnitude (decide ((a < 0) ≠ (b < 0))) (a.natAbs * b.natAbs) (2 ^ unitBits)
  | .fin a, .inf n => if a = 0 then .nan else .inf (decide ((a < 0) ≠ (n = true)))
  | .inf n, .fin b => if b = 0 then .nan else .inf (decide ((n = true) ≠ (b < 0)))
  | .inf n, .inf m => .inf (n != m)

/-- The operator `+` on Numbers. -/
def JSNum.add : JSNum → JSNum → JSNum
  | .nan, _ => .nan
  | _, .nan => .nan
  | .fin a, .fin b => ofMagnitude (decide (a + b < 0)) (a + b).natAbs 1
  | .fin _, .inf n => .inf n
  | .inf n, .fin _ => .inf n
  | .inf n, .inf m => if n = m then .inf n else .nan

/-- The operator `/` on Numbers. -/
def JSNum.div : JSNum → JSNum → JSNum
  | .nan, _ => .nan
  | _, .nan => .nan
  | .fin a, .fin b =>
    if b = 0 then (if a = 0 then .nan else .inf (decide (a < 0)))
    else ofMagnitude (decide ((a < 0) ≠ (b < 0))) (a.natAbs * 2 ^ unitBits) b.natAbs
  | .fin _, .inf _ => .fin 0
  | .inf n, .fin b => .inf (decide ((n = true) ≠ (b < 0)))
  | .inf _, .inf _ => .nan

/-- The test `x > 0`. -/
def JSNum.isPositive : JSNum → Bool
  | .fin u => decide (0 < u)
  | .inf n => !n
  | .nan => false

/-- The test `x === 0`. -/
def JSNum.isZero : JSNum → Bool
  | .fin u => decide (u = 0)
  | _ => false

/-- Two decimal digits of a number below 100. -/
def twoDigits (n : Nat) : String := (if n < 10 then "0" else "") ++ toString n

/-- Decimal text of `n / 100` with exactly two fractional digits. -/
def fixedText (n : Nat) : String := toString (n / 100) ++ "." ++ twoDigits (n % 100)

/-- The integer `n` for which `n / 100` is nearest to the magnitude `x` units, the
larger one of two (step 11.a of `Number.prototype.toFixed`). -/
def nearestHundredths (x : Nat) : Nat := (200 * x + 2 ^ unitBits) / 2 ^ (unitBits + 1)

/-- The method call `x.toFixed(2)`.  A magnitude of `10^21` or more is printed by
`Number::toString`, which is the host routine `numberToString`. -/
def toFixed2 (numberToString : JSNum → String) : JSNum → String
  | .nan => "NaN"
  | .inf false => "Infinity"
  | .inf true => "-Infinity"
  | .fin u =>
    let s := if u < 0 then "-" else ""
    let x := u.natAbs
    if 10 ^ 21 * 2 ^ unitBits ≤ x then s ++ numberToString (.fin x)
    else s ++ fixedText (nearestHundredths x)

/-! ## Data received from the API -/

/-- The session user of the login response. -/
structure User where
  id : Int
  email : String
deriving DecidableEq, Repr

/-- Value of the global `currentUser`. -/
inductive UserVal where
  | null
  | undefined
  | user (u : User)
deriving DecidableEq, Repr

/-- A product of the product list. -/
structure Product where
  id : Int
  name : String
  category : Option String
  description : Option String
  price : JSNum
  stock : JSNum
deriving DecidableEq, Repr

/-- The product embedded in a cart item or an order item (the fields the script reads). -/
structure ItemProduct where
  name : String
  price : JSNum
deriving DecidableEq, Repr

/-- An item of the cart response. -/
structure CartItem where
  id : Int
  product : ItemProduct
  quantity : JSNum
deriving DecidableEq, Repr

/-- An item of an order. -/
structure OrderItem where
  product : ItemProduct
  quantity : JSNum
  unit_price_cents : JSNum
deriving DecidableEq, Repr

/-- An order of the orders response. -/
structure Order where
  id : Int
  created_at : String
  status : String
  items : List OrderItem
  total_cents : JSNum
deriving DecidableEq, Repr

/-- A decoded JSON body: the payload of the contract, or a JSON object with none of
the fields of the contract, such as the error object of a failed request. -/
inductive Json (α : Type) where
  | errorObject (detail : String)
  | value (v : α)
deriving DecidableEq, Repr

/-- Body of a response: `response.json()` rejects on `malformed`. -/
inductive Body (α : Type) where
  | malformed
  | json (j : Json α)
deriving DecidableEq, Repr

/-- A response: `ok` tells a 2xx status. -/
structure Response (α : Type) where
  ok : Bool
  body : Body α
deriving DecidableEq, Repr

/-- Result of `await fetch(...)`: the promise rejects on `networkError`. -/
inductive Fetch (α : Type) where
  | networkError
  | response (r : Response α)
deriving DecidableEq, Repr

/-- Value of the global `currentCart`: whatever the last cart body decoded to. -/
abbrev CartVal := Json (List CartItem)

/-- A request of the script to the API. -/
inductive Request where
  | login (email : String)
  | listProducts
  | getCart (userId : Int)
  | addToCart (userId : Int) (productId : Int) (quantity : Nat)
  | removeFromCart (userId : Int) (itemId : Int)
  | checkout (userId : Int)
  | listOrders (userId : Int)
deriving DecidableEq, Repr

/-- An exception of the script. -/
inductive JSError where
  | typeError
  | fetchFailed
  | syntaxError
  | error (message : String)
deriving DecidableEq, Repr

/-! ## The document, the state and the host -/

/-- The second argument of `showNotification`. -/
inductive Kind where
  | success
  | error
deriving DecidableEq, Repr

/-- The element `notification`: its text, and its class `notification <kind> show`
(`shown` tells whether the class `show` is present). -/
structure Notification where
  text : String
  kind : Kind
  shown : Bool
deriving DecidableEq, Repr

/-- One `product-card` of the products grid. -/
structure ProductCard where
  category : String
  name : String
  description : String
  price : String
  stock : String
  addArg : Int
  disabled : Bool
  label : String
deriving DecidableEq, Repr

/-- One `cart-item` row: the name, the price line and the argument of the remove button. -/
structure CartRow where
  name : String
  priceLine : String
  removeArg : Int
deriving DecidableEq, Repr

/-- One line of an order card. -/
structure OrderLine where
  label : String
  amount : String
deriving DecidableEq, Repr

/-- One `order-card`. -/
structure OrderCard where
  id : Int
  date : String
  status : String
  lines : List OrderLine
  total : String
deriving DecidableEq, Repr

/-- Content of a container the script fills through `innerHTML`: as shipped in the
document, an `empty-cart` message, or the rendered entries with a footer text. -/
inductive View (α : Type) where
  | pristine
  | message (text : String)
  | entries (rows : List α) (footer : String)
deriving DecidableEq, Repr

/-- The parts of the document the script writes. -/
structure Dom where
  userEmail : String
  productsGrid : View ProductCard
  cartCount : String
  cartItems : View CartRow
  ordersList : View OrderCard
  notification : Notification
  productsDisplay : String
  cartActive : Bool
  ordersActive : Bool
  tabButtons : List String
  activeControls : List String
deriving DecidableEq, Repr

/-- A callback registered with `setTimeout`. -/
inductive TimerAction where
  | hideNotification
  | showOrdersTab
deriving DecidableEq, Repr

/-- A pending timer: the time it is due at, in ms. -/
structure Timer where
  due : Nat
  action : TimerAction
deriving DecidableEq, Repr

/-- The state of the page. -/
structure State where
  currentUser : UserVal
  currentCart : CartVal
  dom : Dom
  now : Nat
  timers : List Timer
  requests : List Request
  notices : List (String × Kind)
  prompts : List String
  console : List String
deriving DecidableEq, Repr

/-- The browser and the remote API.  Each endpoint oracle receives the requests
issued so far, the current one last. -/
structure Host where
  login : List Request → Fetch User
  listProducts : List Request → Fetch (List Product)
  getCart : List Request → Fetch (List CartItem)
  addToCart : List Request → Fetch Unit
  removeFromCart : List Request → Fetch Unit
  checkout : List Request → Fetch JSNum
  listOrders : List Request → Fetch (List Order)
  confirm : Nat → Bool
  numberToString : JSNum → String
  localeDate : String → String
  localeTime : String → String

/-- The document before any script ran, with the tab buttons `tabs`. -/
def initialDom (tabs : List String) : Dom :=
  { userEmail := "", productsGrid := .pristine, cartCount := "", cartItems := .pristine,
    ordersList := .pristine, notification := { text := "", kind := .success, shown := false },
    productsDisplay := "", cartActive := false, ordersActive := false,
    tabButtons := tabs, activeControls := [] }

/-- The state at page load: `let currentUser = null; let currentCart = [];`. -/
def initialState (tabs : List String) : State :=
  { currentUser := .null, currentCart := .value [], dom := initialDom tabs, now := 0,
    timers := [], requests := [], notices := [], prompts := [], console := [] }

/-! ## Running script code -/

/-- Outcome of running a piece of script: the state reached, and the value returned
or the exception thrown.  The effects made before a throw stay. -/
structure Run (α : Type) where
  state : State
  result : Except JSError α

/-- A piece of script. -/
def Js (α : Type) : Type := State → Run α

/-- Return a value. -/
def Js.pure {α : Type} (a : α) : Js α := fun s => ⟨s, .ok a⟩

/-- Sequencing: an exception of the first part skips the second. -/
def Js.bind {α β : Type} (x : Js α) (f : α → Js β) : Js β := fun s =>
  match x s with
  | ⟨s1, .ok a⟩ => f a s1
  | ⟨s1, .error e⟩ => ⟨s1, .error e⟩

instance : Monad Js where
  pure := Js.pure
  bind := Js.bind

/-- The statement `throw`. -/
def raise {α : Type} (e : JSError) : Js α := fun s => ⟨s, .error e⟩

/-- The statement `try body catch (error) handler`. -/
def attempt {α : Type} (body : Js α) (handler : JSError → Js α) : Js α := fun s =>
  match body s with
  | ⟨s1, .error e⟩ => handler e s1
  | ⟨s1, .ok a⟩ => ⟨s1, .ok a⟩

/-- An assignment to a global or to the document. -/
def update (f : State → State) : Js Unit := fun s => ⟨f s, .ok ()⟩

/-- A read of the state. -/
def readState : Js State := fun s => ⟨s, .ok s⟩

/-- The calls `console.log` and `console.error`, by their first argument. -/
def consoleLine (label : String) : Js Unit :=
  update fun s => { s with console := s.console ++ [label] }

/-- The call `setTimeout(action, delay)`. -/
def setTimeout (action : TimerAction) (delay : Nat) : Js Unit :=
  update fun s => { s with timers := s.timers ++ [{ due := s.now + delay, action := action }] }

/-- The expression `await fetch(...)` for the request `r` of the endpoint `oracle`. -/
def awaitFetch {α : Type} (oracle : List Request → Fetch α) (r : Request) : Js (Response α) :=
  fun s =>
    let s1 := { s with requests := s.requests ++ [r] }
    match oracle s1.requests with
    | .networkError => ⟨s1, .error .fetchFailed⟩
    | .response resp => ⟨s1, .ok resp⟩

/-- The expression `await response.json()`. -/
def awaitJson {α : Type} (resp : Response α) : Js (Json α) :=
  match resp.body with
  | .malformed => raise .syntaxError
  | .json j => Js.pure j

/-- The expression `currentUser.id`: a TypeError when `currentUser` is null or undefined. -/
def currentUserId : Js Int := fun s =>
  match s.currentUser with
  | .user u => ⟨s, .ok u.id⟩
  | _ => ⟨s, .error .typeError⟩

/-- The expression `confirm(message)`: the host answers the prompt. -/
def confirm (h : Host) (message : String) : Js Bool := fun s =>
  ⟨{ s with prompts := s.prompts ++ [message] }, .ok (h.confirm s.prompts.length)⟩

/-! ## The script -/

/-- Function `showNotification(message, type)`: sets the text and the class
`notification <type> show`, and registers the callback that removes `show`. -/
def showNotification (message : String) (type : Kind) : Js Unit := do
  update fun s => { s with
    dom := { s.dom with notification := { text := message, kind := type, shown := true } },
    notices := s.notices ++ [(message, type)] }
  setTimeout .hideNotification 3000

/-- The expression `value || fallback` on an optional string: absent and empty are falsy. -/
def orDefault (value : Option String) (fallback : String) : String :=
  match value with
  | some v => if v = "" then fallback else v
  | none => fallback

/-- The card `loadProducts` renders for one product. -/
def productCard (h : Host) (product : Product) : ProductCard :=
  { category := orDefault product.category "General"
    name := product.name
    description := orDefault product.description "No description available"
    price := "$" ++ toFixed2 h.numberToString product.price
    stock :=
      if product.stock.isPositive then h.numberToString product.stock ++ " in stock"
      else "Out of stock"
    addArg := product.id
    disabled := product.stock.isZero
    label := if product.stock.isZero then "Out of Stock" else "Add to Cart" }

/-- The markup `loadProducts` assigns to the products grid. -/
def productsView (h : Host) (ps : List Product) : View ProductCard :=
  if ps.length = 0 then .message "No products available"
  else .entries (ps.map (productCard h)) ""

/-- Function `loadProducts()`.  On a body that is no array `map` is no function. -/
def loadProducts (h : Host) : Js Unit :=
  attempt (do
    let response ← awaitFetch h.listProducts .listProducts
    let products ← awaitJson response
    match products with
    | .errorObject _ => raise .typeError
    | .value ps =>
      update fun s => { s with dom := { s.dom with productsGrid := productsView h ps } })
    (fun _ => do
      consoleLine "Error loading products:"
      showNotification "Failed to load products" .error)

/-- The expression `currentCart.length`: `none` is `undefined`. -/
def cartLength : CartVal → Option Nat
  | .value c => some c.length
  | .errorObject _ => none

/-- Function `updateCartCount()`: an `undefined` count leaves the badge text empty. -/
def updateCartCount : Js Unit :=
  update fun s =>
    let count : String :=
      match cartLength s.currentCart with
      | some n => toString n
      | none => ""
    { s with dom := { s.dom with cartCount := count } }

/-- The `reduce` of `displayCart`: the sum, from `0`, of `price * quantity`. -/
def cartTotal (c : List CartItem) : JSNum :=
  c.foldl (fun sum item => sum.add (item.product.price.mul item.quantity)) (.fin 0)

/-- The row `displayCart` renders for one item. -/
def cartRow (h : Host) (item : CartItem) : CartRow :=
  { name := item.product.name
    priceLine :=
      "$" ++ toFixed2 h.numberToString item.product.price ++ " x "
        ++ h.numberToString item.quantity ++ " = $"
        ++ toFixed2 h.numberToString (item.product.price.mul item.quantity)
    removeArg := item.id }

/-- The markup `displayCart` assigns to the cart container for the cart `c`: the
empty message, or the rows followed by the cart-wide total. -/
def cartView (h : Host) (c : List CartItem) : View CartRow :=
  if c.length = 0 then .message "Your cart is empty"
  else .entries (c.map (cartRow h)) ("Total: $" ++ toFixed2 h.numberToString (cartTotal c))

/-- Function `displayCart()`.  On a cart that is no array `reduce` is no function. -/
def displayCart (h : Host) : Js Unit := do
  let s ← readState
  match s.currentCart with
  | .errorObject _ => raise .typeError
  | .value c => update fun s => { s with dom := { s.dom with cartItems := cartView h c } }

/-- Function `loadCart()`. -/
def loadCart (h : Host) : Js Unit :=
  attempt (do
    let userId ← currentUserId
    let response ← awaitFetch h.getCart (.getCart userId)
    let cart ← awaitJson response
    update fun s => { s with currentCart := cart }
    updateCartCount
    displayCart h)
    (fun _ => consoleLine "Error loading cart:")

/-- Function `addToCart(productId)`. -/
def addToCart (h : Host) (productId : Int) : Js Unit :=
  attempt (do
    let userId ← currentUserId
    let response ← awaitFetch h.addToCart (.addToCart userId productId 1)
    if !response.ok then raise (.error "Failed to add to cart")
    else do
      showNotification "Added to cart!" .success
      loadCart h)
    (fun _ => do
      consoleLine "Error adding to cart:"
      showNotification "Failed to add to cart" .error)

/-- Function `removeFromCart(itemId)`. -/
def removeFromCart (h : Host) (itemId : Int) : Js Unit :=
  attempt (do
    let userId ← currentUserId
    let response ← awaitFetch h.removeFromCart (.removeFromCart userId itemId)
    if !response.ok then raise (.error "Failed to remove item")
    else do
      showNotification "Item removed from cart" .success
      loadCart h)
    (fun _ => do
      consoleLine "Error removing from cart:"
      showNotification "Failed to remove item" .error)

/-- Function `checkout()`. -/
def checkout (h : Host) : Js Unit := do
  let s ← readState
  if cartLength s.currentCart = some 0 then
    showNotification "Cart is empty" .error
  else do
    let confirmed ← confirm h "Proceed with checkout?"
    if !confirmed then Js.pure ()
    else
      attempt (do
        let userId ← currentUserId
        let response ← awaitFetch h.checkout (.checkout userId)
        if !response.ok then raise (.error "Checkout failed")
        else do
          let result ← awaitJson response
          match result with
          | .errorObject _ => raise .typeError
          | .value total =>
            showNotification
              ("Order completed! Total: $" ++ toFixed2 h.numberToString total) .success
            loadCart h
            loadProducts h
            setTimeout .showOrdersTab 1500)
        (fun _ => do
          consoleLine "Checkout error:"
          showNotification "Checkout failed" .error)

/-- The line `loadOrders` renders for one order item. -/
def orderLine (h : Host) (item : OrderItem) : OrderLine :=
  { label := item.product.name ++ " x " ++ h.numberToString item.quantity
    amount :=
      "$" ++ toFixed2 h.numberToString
        ((item.unit_price_cents.mul item.quantity).div (ofNat 100)) }

/-- The card `loadOrders` renders for one order. -/
def orderCard (h : Host) (order : Order) : OrderCard :=
  { id := order.id
    date := h.localeDate order.created_at ++ " at " ++ h.localeTime order.created_at
    status := order.status
    lines := order.items.map (orderLine h)
    total := "Total: $" ++ toFixed2 h.numberToString (order.total_cents.div (ofNat 100)) }

/-- The markup `loadOrders` assigns to the orders list. -/
def ordersView (h : Host) (os : List Order) : View OrderCard :=
  if os.length = 0 then .message "No orders yet"
  else .entries (os.map (orderCard h)) ""

/-- Function `loadOrders()`.  On a body that is no array `map` is no function. -/
def loadOrders (h : Host) : Js Unit :=
  attempt (do
    let userId ← currentUserId
    let response ← awaitFetch h.listOrders (.listOrders userId)
    let orders ← awaitJson response
    match orders with
    | .errorObject _ => raise .typeError
    | .value os =>
      update fun s => { s with dom := { s.dom with ordersList := ordersView h os } })
    (fun _ => do
      consoleLine "Error loading orders:"
      showNotification "Failed to load orders" .error)

/-- The global `event` at the time of a call: `undefined` outside the dispatch of an
event, otherwise the event with its `target` (a control, or null). -/
inductive AmbientEvent where
  | undefined
  | event (target : Option String)
deriving DecidableEq, Repr

/-- The call `classList.add` of the class active on a control. -/
def addActive (control : String) (active : List String) : List String :=
  if active.contains control then active else active ++ [control]

/-- Function `showTab(tab)`, called while the global `event` is `ev`.  The orders
reload it starts is run to its end. -/
def showTab (h : Host) (tab : String) (ev : AmbientEvent) : Js Unit := do
  update fun s =>
    let kept := s.dom.activeControls.filter fun c => !s.dom.tabButtons.contains c
    { s with dom := { s.dom with activeControls := kept } }
  match ev with
  | .undefined => raise .typeError
  | .event none => Js.pure ()
  | .event (some control) =>
    update fun s => { s with
      dom := { s.dom with activeControls := addActive control s.dom.activeControls } }
  update fun s => { s with
    dom := { s.dom with
      productsDisplay := if tab = "products" then "block" else "none"
      cartActive := decide (tab = "cart")
      ordersActive := decide (tab = "orders") } }
  if tab = "orders" then loadOrders h
  else if tab = "cart" then displayCart h
  else Js.pure ()

/-- Function `showCart()`. -/
def showCart (h : Host) (ev : AmbientEvent) : Js Unit := showTab h "cart" ev

/-- Function `init()`.  The call `heavyComputation()` between the two log lines
computes a Number that is dropped and has no effect. -/
def init (h : Host) : Js Unit :=
  attempt (do
    consoleLine "Starting heavy computation..."
    consoleLine "Heavy computation complete"
    let loginResponse ← awaitFetch h.login (.login "demo@example.com")
    let loginData ← awaitJson loginResponse
    let user : UserVal :=
      match loginData with
      | .value u => .user u
      | .errorObject _ => .undefined
    update fun s => { s with currentUser := user }
    let s ← readState
    match s.currentUser with
    | .user u => update fun s => { s with dom := { s.dom with userEmail := u.email } }
    | _ => raise .typeError
    loadProducts h
    loadCart h)
    (fun _ => do
      consoleLine "Initialization error:"
      showNotification "Failed to initialize app" .error)

/-! ## Timers -/

/-- The callback of a timer, run outside any event dispatch. -/
def runTimer (h : Host) : TimerAction → Js Unit
  | .hideNotification =>
    update fun s => { s with
      dom := { s.dom with notification := { s.dom.notification with shown := false } } }
  | .showOrdersTab => showTab h "orders" .undefined

/-- Time passes by `d` ms, which it can while no pending timer is due earlier. -/
def elapse (d : Nat) (s : State) : Option State :=
  if s.timers.all (fun t => decide (s.now + d ≤ t.due)) then some { s with now := s.now + d }
  else none

/-- The first pending timer that is due fires: it leaves the pending ones and its
callback runs. -/
def fireDue (h : Host) (s : State) : Option (Run Unit) :=
  match s.timers.findIdx? (fun t => decide (t.due ≤ s.now)) with
  | none => none
  | some i =>
    match s.timers.get? i with
    | none => none
    | some t => some (runTimer h t.action { s with timers := s.timers.eraseIdx i })

/-! ## Definitions used by the statements -/

/-- The two mutating cart actions, `addToCart(productId)` and `removeFromCart(itemId)`. -/
inductive Mutation where
  | add (productId : Int)
  | remove (itemId : Int)
deriving DecidableEq, Repr

/-- The request a mutating action sends for the user `userId`. -/
def Mutation.request (userId : Int) : Mutation → Request
  | .add productId => .addToCart userId productId 1
  | .remove itemId => .removeFromCart userId itemId

/-- The endpoint that answers a mutating action. -/
def Mutation.oracle (h : Host) : Mutation → List Request → Fetch Unit
  | .add _ => h.addToCart
  | .remove _ => h.removeFromCart

/-- The handler of a mutating action. -/
def Mutation.run (h : Host) : Mutation → Js Unit
  | .add productId => addToCart h productId
  | .remove itemId => removeFromCart h itemId

/-- The names of the sections that are visible: the products section unless its
`display` is `none`, the cart and orders sections when they carry the class active. -/
def visibleSections (d : Dom) : List String :=
  (if d.productsDisplay = "none" then [] else ["products"])
    ++ (if d.cartActive then ["cart"] else [])
    ++ (if d.ordersActive then ["orders"] else [])

/-- The request failed in transport or decoding: a network error or a body that is
not JSON. -/
def Fetch.undecodable {α : Type} : Fetch α → Bool
  | .networkError => true
  | .response r => match r.body with
    | .malformed => true
    | .json _ => false

/-- The request failed in the eyes of a handler that checks `response.ok`: a network
error or a non-2xx status. -/
def Fetch.rejected {α : Type} : Fetch α → Bool
  | .networkError => true
  | .response r => !r.ok

/-- The login step of `init` failed: the request failed in transport or decoding,
or the body carries no `user`. -/
def loginFailed : Fetch User → Bool
  | .networkError => true
  | .response r => match r.body with
    | .malformed => true
    | .json (.errorObject _) => true
    | .json (.value _) => false

/-- The products step failed: transport, decoding, or a body that is no array. -/
def listFailed {α : Type} : Fetch (List α) → Bool
  | .networkError => true
  | .response r => match r.body with
    | .malformed => true
    | .json (.errorObject _) => true
    | .json (.value _) => false

/-! ## Example data -/

/-- The routine `Number::toString` on the integers of the examples. -/
def integerText : JSNum → String
  | .fin u => if u % 2 ^ unitBits = 0 then toString (u / 2 ^ unitBits) else "?"
  | _ => "?"

/-- The demo user of the login scenario. -/
def demoUser : User := { id := 1, email := "demo@example.com" }

/-- The cart item `{id: 5, product: {name: "Widget", price: 9.99}, quantity: 2}`. -/
def widget : CartItem :=
  { id := 5, product := { name := "Widget", price := ofDecimal 999 2 }, quantity := ofNat 2 }

/-- A host where every request succeeds: the cart holds the widget until a checkout
was requested, the checkout answers `{total: 19.98}`, and the user confirms. -/
def shopHost : Host :=
  { login := fun _ => .response ⟨true, .json (.value demoUser)⟩
    listProducts := fun _ => .response ⟨true, .json (.value [])⟩
    getCart := fun history =>
      if history.contains (.checkout 1) then .response ⟨true, .json (.value [])⟩
      else .response ⟨true, .json (.value [widget])⟩
    addToCart := fun _ => .response ⟨true, .malformed⟩
    removeFromCart := fun _ => .response ⟨true, .malformed⟩
    checkout := fun _ => .response ⟨true, .json (.value (ofDecimal 1998 2))⟩
    listOrders := fun _ => .response ⟨true, .json (.value [])⟩
    confirm := fun _ => true
    numberToString := integerText
    localeDate := fun t => t
    localeTime := fun t => t }

/-- The host `shopHost` with the products endpoint unreachable. -/
def productsDownHost : Host := { shopHost with listProducts := fun _ => .networkError }

/-- The host `shopHost` where the mutating requests are answered with a 500 status. -/
def rejectingHost : Host :=
  { shopHost with
    addToCart := fun _ => .response ⟨false, .json (.errorObject "Internal Server Error")⟩
    removeFromCart := fun _ => .response ⟨false, .json (.errorObject "Internal Server Error")⟩ }

/-- The host `shopHost` where the cart endpoint answers a 500 status with the body `[]`. -/
def cartErrorHost : Host :=
  { shopHost with getCart := fun _ => .response ⟨false, .json (.value [])⟩ }

/-- The host `shopHost` where the cart endpoint answers a 500 status with an error
object as body. -/
def cartFailureHost : Host :=
  { shopHost with
    getCart := fun _ => .response ⟨false, .json (.errorObject "Internal Server Error")⟩ }

/-- The page after a successful bootstrap: the demo user, the widget in the cart. -/
def signedIn : State :=
  { initialState ["productsTab", "ordersTab"] with
    currentUser := .user demoUser, currentCart := .value [widget] }

/-! ## Exact decimal amounts and frame predicates -/

/-- A cart item as the API states it: the exact decimal price
`priceDigits / 10 ^ priceScale` and an integer quantity. -/
structure DecimalItem where
  id : Int
  name : String
  priceDigits : Nat
  priceScale : Nat
  quantity : Nat
deriving DecidableEq, Repr

/-- The cart item `JSON.parse` yields: price and quantity become the nearest doubles. -/
def DecimalItem.parse (d : DecimalItem) : CartItem :=
  { id := d.id
    product := { name := d.name, price := ofDecimal d.priceDigits d.priceScale }
    quantity := ofNat d.quantity }

/-- The exact line total `p * q` of an item. -/
def DecimalItem.exactLine (d : DecimalItem) : ℚ :=
  (d.priceDigits : ℚ) / 10 ^ d.priceScale * d.quantity

/-- The exact sum of `p_i * q_i` over the items. -/
def exactTotal (c : List DecimalItem) : ℚ := (c.map DecimalItem.exactLine).sum

/-- A non-negative exact amount formatted to two decimal places: the nearest
hundredth, the upper one of two. -/
def formatExact2 (x : ℚ) : String := fixedText ⌊x * 100 + 1 / 2⌋.toNat

/-- An item priced at the exact decimal 1.015. -/
def gadget : DecimalItem :=
  { id := 9, name := "Gadget", priceDigits := 1015, priceScale := 3, quantity := 1 }

/-- An item priced at the integer `2^53 + 1`, which is no double. -/
def ingot : DecimalItem :=
  { id := 10, name := "Ingot", priceDigits := 9007199254740993, priceScale := 0, quantity := 1 }

/-- The session values and the section visibility of two states agree. -/
def SameSession (s t : State) : Prop :=
  t.currentUser = s.currentUser ∧ t.currentCart = s.currentCart ∧
  t.dom.productsDisplay = s.dom.productsDisplay ∧ t.dom.cartActive = s.dom.cartActive ∧
  t.dom.ordersActive = s.dom.ordersActive

/-- The session values after a run are those before it. -/
def Unchanged (s : State) (r : Run Unit) : Prop :=
  r.state.currentUser = s.currentUser ∧ r.state.currentCart = s.currentCart

/-- The state a piece of script ends in. -/
def after (x : Js Unit) (s : State) : State := (x s).state

/-! ## Values and ranges of the exactness result -/

/-- The real value of a magnitude of `u` units. -/
def unitsValue (u : Nat) : ℚ := (u : ℚ) / 2 ^ 1074

/-- The number `y` is within the rounding error of a double operation of exact result `x`:
the relative error `2^-53`, or half the smallest unit. -/
def Rounded (x y : ℚ) : Prop := |y - x| ≤ x / 2 ^ 53 + 1 / 2 ^ 1075

/-- The exact decimal price of an item. -/
def DecimalItem.price (d : DecimalItem) : ℚ := (d.priceDigits : ℚ) / 10 ^ d.priceScale

/-- The row of an item with the amounts computed exactly. -/
def exactRow (h : Host) (d : DecimalItem) : CartRow :=
  { name := d.name
    priceLine :=
      "$" ++ formatExact2 d.price ++ " x " ++ h.numberToString (ofNat d.quantity) ++ " = $"
        ++ formatExact2 d.exactLine
    removeArg := d.id }

/-- An item within the range of the exactness result: a price of at most two
fractional digits and a quantity between 1 and `10^9`. -/
def DecimalItem.InRange (d : DecimalItem) : Prop :=
  d.priceScale ≤ 2 ∧ 1 ≤ d.quantity ∧ d.quantity ≤ 10 ^ 9

/-- The widget as the API states it. -/
def widgetDecimal : DecimalItem :=
  { id := 5, name := "Widget", priceDigits := 999, priceScale := 2, quantity := 2 }

/-! ## Running the primitives -/

@[simp]
theorem bind_run {α β : Type} (x : Js α) (f : α → Js β) (s : State) :
    (x >>= f) s = match x s with
      | ⟨s1, .ok a⟩ => f a s1
      | ⟨s1, .error e⟩ => ⟨s1, .error e⟩ := rfl

@[simp]
theorem pure_run {α : Type} (a : α) (s : State) : (Js.pure a) s = ⟨s, .ok a⟩ := rfl

@[simp]
theorem update_run (f : State → State) (s : State) : update f s = ⟨f s, .ok ()⟩ := rfl

@[simp]
theorem raise_run {α : Type} (e : JSError) (s : State) :
    (raise e : Js α) s = ⟨s, .error e⟩ := rfl

@[simp]
theorem readState_run (s : State) : readState s = ⟨s, .ok s⟩ := rfl

@[simp]
theorem attempt_run {α : Type} (body : Js α) (handler : JSError → Js α) (s : State) :
    attempt body handler s = match body s with
      | ⟨s1, .error e⟩ => handler e s1
      | ⟨s1, .ok a⟩ => ⟨s1, .ok a⟩ := rfl

/-! ## Checkout on an empty cart -/

/-- Claim C1.  In every state whose `currentCart` has length 0, `checkout()` returns
normally, issues no request, asks no confirmation, emits exactly one notification,
`Cart is empty` of kind error, and leaves `currentUser` and `currentCart` as they were. -/
theorem checkout_empty_cart (h : Host) (s : State) (hempty : cartLength s.currentCart = some 0) :
    (checkout h s).result = .ok () ∧
    (checkout h s).state.requests = s.requests ∧
    (checkout h s).state.prompts = s.prompts ∧
    (checkout h s).state.notices = s.notices ++ [("Cart is empty", Kind.error)] ∧
    (checkout h s).state.currentUser = s.currentUser ∧
    (checkout h s).state.currentCart = s.currentCart := by
  simp [checkout, hempty, showNotification, setTimeout]

/-- Witness of C1: the page as loaded, whose cart is `[]`, with the shop host. -/
theorem checkout_empty_cart_witness :
    cartLength (initialState []).currentCart = some 0 ∧
    (checkout shopHost (initialState [])).state.requests = [] ∧
    (checkout shopHost (initialState [])).state.notices = [("Cart is empty", Kind.error)] :=
  ⟨rfl, (checkout_empty_cart shopHost (initialState []) rfl).2.1,
    (checkout_empty_cart shopHost (initialState []) rfl).2.2.2.1⟩

/-! ## Cart mutations -/

/-- Claim C2.  With a user set, when the add (or remove) request is answered 2xx and the
following cart request returns the sequence `c`, then after `addToCart(productId)`
(or `removeFromCart(itemId)`) `currentCart` is exactly `c`, whatever it was before,
the badge shows the length of `c` and the cart container holds the markup of `c`. -/
theorem cart_after_mutation (h : Host) (s : State) (u : User) (m : Mutation)
    (b : Body Unit) (ok : Bool) (c : List CartItem)
    (hu : s.currentUser = .user u)
    (hm : m.oracle h (s.requests ++ [m.request u.id]) = .response ⟨true, b⟩)
    (hc : h.getCart (s.requests ++ [m.request u.id, .getCart u.id])
      = .response ⟨ok, .json (.value c)⟩) :
    (m.run h s).result = .ok () ∧
    (m.run h s).state.currentCart = .value c ∧
    (m.run h s).state.dom.cartCount = toString c.length ∧
    (m.run h s).state.dom.cartItems = cartView h c ∧
    (m.run h s).state.requests = s.requests ++ [m.request u.id, .getCart u.id] := by
  cases m <;>
  simp only [Mutation.run, Mutation.oracle, Mutation.request] at * <;>
  simp [addToCart, removeFromCart, loadCart, awaitFetch, awaitJson, currentUserId,
    consoleLine, showNotification, setTimeout, updateCartCount, displayCart,
    cartLength, hu, hm, hc]

/-- Witness of C2: the signed-in page with the shop host, removing item 5 while the cart
endpoint still returns the widget. -/
theorem cart_after_mutation_witness :
    (removeFromCart shopHost 5 signedIn).state.currentCart = .value [widget] ∧
    (removeFromCart shopHost 5 signedIn).state.dom.cartCount = "1" :=
  ⟨(cart_after_mutation shopHost signedIn demoUser (.remove 5) .malformed true [widget]
      rfl rfl rfl).2.1,
   (cart_after_mutation shopHost signedIn demoUser (.remove 5) .malformed true [widget]
      rfl rfl rfl).2.2.1⟩

/-- Claim C4.  With a user set, when the add-to-cart request is answered with a non-2xx
status, `addToCart(productId)` shows `Failed to add to cart` of kind error, issues no
cart request, and leaves `currentCart` and `currentUser` as they were. -/
theorem addToCart_rejected (h : Host) (s : State) (u : User) (productId : Int)
    (r : Response Unit)
    (hu : s.currentUser = .user u)
    (hr : h.addToCart (s.requests ++ [.addToCart u.id productId 1]) = .response r)
    (hok : r.ok = false) :
    (addToCart h productId s).result = .ok () ∧
    (addToCart h productId s).state.notices
      = s.notices ++ [("Failed to add to cart", Kind.error)] ∧
    (addToCart h productId s).state.dom.notification
      = { text := "Failed to add to cart", kind := .error, shown := true } ∧
    (addToCart h productId s).state.requests = s.requests ++ [.addToCart u.id productId 1] ∧
    (addToCart h productId s).state.currentCart = s.currentCart ∧
    (addToCart h productId s).state.currentUser = s.currentUser := by
  simp [addToCart, awaitFetch, currentUserId, consoleLine, showNotification, setTimeout,
    hu, hr, hok]

/-- Witness of C4: the signed-in page with the host that answers 500. -/
theorem addToCart_rejected_witness :
    (addToCart rejectingHost 7 signedIn).state.notices
      = [("Failed to add to cart", Kind.error)] ∧
    (addToCart rejectingHost 7 signedIn).state.requests = [.addToCart 1 7 1] ∧
    (addToCart rejectingHost 7 signedIn).state.currentCart = .value [widget] :=
  ⟨(addToCart_rejected rejectingHost signedIn demoUser 7
      ⟨false, .json (.errorObject "Internal Server Error")⟩ rfl rfl rfl).2.1,
   (addToCart_rejected rejectingHost signedIn demoUser 7
      ⟨false, .json (.errorObject "Internal Server Error")⟩ rfl rfl rfl).2.2.2.1,
   (addToCart_rejected rejectingHost signedIn demoUser 7
      ⟨false, .json (.errorObject "Internal Server Error")⟩ rfl rfl rfl).2.2.2.2.1⟩

/-! ## What the loaders leave alone -/

theorem loadOrders_frame (h : Host) (s : State) :
    (loadOrders h s).result = .ok () ∧ SameSession s (loadOrders h s).state := by
  unfold loadOrders SameSession
  cases hu : s.currentUser with
  | null => simp [currentUserId, hu, consoleLine, showNotification, setTimeout]
  | undefined => simp [currentUserId, hu, consoleLine, showNotification, setTimeout]
  | user u =>
    cases hf : h.listOrders (s.requests ++ [.listOrders u.id]) with
    | networkError =>
      simp [currentUserId, hu, hf, awaitFetch, consoleLine, showNotification, setTimeout]
    | response r =>
      rcases r with ⟨ok, _ | ⟨_ | _⟩⟩ <;>
      simp [currentUserId, hu, hf, awaitFetch, awaitJson, consoleLine, showNotification,
        setTimeout]

theorem loadProducts_frame (h : Host) (s : State) :
    (loadProducts h s).result = .ok () ∧ SameSession s (loadProducts h s).state ∧
    (loadProducts h s).state.requests = s.requests ++ [.listProducts] := by
  unfold loadProducts SameSession
  cases hf : h.listProducts (s.requests ++ [.listProducts]) with
  | networkError =>
    simp [hf, awaitFetch, consoleLine, showNotification, setTimeout]
  | response r =>
    rcases r with ⟨ok, _ | ⟨_ | _⟩⟩ <;>
    simp [hf, awaitFetch, awaitJson, consoleLine, showNotification, setTimeout]

theorem displayCart_frame (h : Host) (s : State) :
    (displayCart h s).state.currentUser = s.currentUser ∧
    (displayCart h s).state.currentCart = s.currentCart ∧
    (displayCart h s).state.requests = s.requests ∧
    (displayCart h s).state.dom.productsDisplay = s.dom.productsDisplay ∧
    (displayCart h s).state.dom.cartActive = s.dom.cartActive ∧
    (displayCart h s).state.dom.ordersActive = s.dom.ordersActive := by
  unfold displayCart
  cases hc : s.currentCart <;> simp [hc]

/-- After `showTab(tab)` called from a UI control the three section flags are
determined by `tab` alone. -/
theorem showTab_sections (h : Host) (s : State) (tab : String) (target : Option String) :
    (showTab h tab (.event target) s).state.dom.productsDisplay
      = (if tab = "products" then "block" else "none") ∧
    (showTab h tab (.event target) s).state.dom.cartActive = decide (tab = "cart") ∧
    (showTab h tab (.event target) s).state.dom.ordersActive = decide (tab = "orders") := by
  unfold showTab
  by_cases ho : tab = "orders"
  · have := (loadOrders_frame h)
    cases target <;> simp [ho, SameSession] at * <;> simp [this]
  · by_cases hc : tab = "cart"
    · have := (displayCart_frame h)
      cases target <;> simp [hc] <;> simp [this]
    · cases target <;> simp [ho, hc]

/-- Claim C6.  For every first target `t1`, every second target `t2` among products,
cart and orders, and any prior visibility, after `showTab(t1)` then `showTab(t2)`, each called from a UI control,
the products section is displayed iff `t2` is products, the cart and orders sections
carry the class active iff `t2` is their name, so exactly the section `t2` is visible;
and `showTab(t1)` twice gives the visibility of `showTab(t1)` once. -/
theorem showTab_twice (h : Host) (s : State) (t1 t2 : String) (c1 c2 : Option String)
    (h2 : t2 ∈ ["products", "cart", "orders"]) :
    ((showTab h t2 (.event c2) (showTab h t1 (.event c1) s).state).state.dom.productsDisplay
        = "block" ↔ t2 = "products") ∧
    ((showTab h t2 (.event c2) (showTab h t1 (.event c1) s).state).state.dom.productsDisplay
        = "none" ↔ t2 ≠ "products") ∧
    ((showTab h t2 (.event c2) (showTab h t1 (.event c1) s).state).state.dom.cartActive
        = true ↔ t2 = "cart") ∧
    ((showTab h t2 (.event c2) (showTab h t1 (.event c1) s).state).state.dom.ordersActive
        = true ↔ t2 = "orders") ∧
    visibleSections (showTab h t2 (.event c2) (showTab h t1 (.event c1) s).state).state.dom
      = [t2] ∧
    visibleSections (showTab h t1 (.event c2) (showTab h t1 (.event c1) s).state).state.dom
      = visibleSections (showTab h t1 (.event c1) s).state.dom := by
  obtain ⟨p2, q2, r2⟩ := showTab_sections h (showTab h t1 (.event c1) s).state t2 c2
  obtain ⟨p1, q1, r1⟩ := showTab_sections h s t1 c1
  obtain ⟨p3, q3, r3⟩ := showTab_sections h (showTab h t1 (.event c1) s).state t1 c2
  simp only [visibleSections, p1, q1, r1, p2, q2, r2, p3, q3, r3]
  simp only [List.mem_cons, List.mem_singleton, List.not_mem_nil, or_false] at h2
  rcases h2 with rfl | rfl | rfl <;> simp

/-- Witness of C6: a switch from the cart to the orders tab on the signed-in page. -/
theorem showTab_twice_witness :
    visibleSections
      (showTab shopHost "orders" (.event (some "ordersTab"))
        (showTab shopHost "cart" (.event (some "cartButton")) signedIn).state).state.dom
      = ["orders"] :=
  (showTab_twice shopHost signedIn "cart" "orders" (some "cartButton") (some "ordersTab")
    (by decide)).2.2.2.2.1

/-- Claim C7.  In every state where `currentUser` is null, hence in every such state
reachable from the initial one, each of `addToCart`, `removeFromCart`, `checkout`,
`loadCart` and `loadOrders` returns normally (its TypeError is caught), issues no
request, and leaves `currentUser` and `currentCart` as they were. -/
theorem null_user_precondition (h : Host) (s : State) (productId itemId : Int)
    (hnull : s.currentUser = .null) :
    ∀ handler ∈ [addToCart h productId, removeFromCart h itemId, checkout h, loadCart h,
        loadOrders h],
      (handler s).result = .ok () ∧
      (handler s).state.requests = s.requests ∧
      (handler s).state.currentUser = s.currentUser ∧
      (handler s).state.currentCart = s.currentCart := by
  simp only [List.forall_mem_cons, List.not_mem_nil, false_implies, implies_true, and_true]
  refine ⟨?_, ?_, ?_, ?_, ?_⟩
  · simp [addToCart, currentUserId, hnull, consoleLine, showNotification, setTimeout]
  · simp [removeFromCart, currentUserId, hnull, consoleLine, showNotification, setTimeout]
  · unfold checkout
    by_cases hc : cartLength s.currentCart = some 0
    · simp [hc, showNotification, setTimeout]
    · cases hy : h.confirm s.prompts.length <;>
      simp [hc, hy, confirm, currentUserId, hnull, consoleLine, showNotification, setTimeout]
  · simp [loadCart, currentUserId, hnull, consoleLine]
  · simp [loadOrders, currentUserId, hnull, consoleLine, showNotification, setTimeout]

/-- Witness of C7: the page as loaded, where no user is set yet. -/
theorem null_user_precondition_witness :
    (addToCart shopHost 7 (initialState [])).state.requests = [] ∧
    (checkout shopHost (initialState [])).state.requests = [] :=
  ⟨(null_user_precondition shopHost (initialState []) 7 5 rfl (addToCart shopHost 7)
      (by simp)).2.1,
   (null_user_precondition shopHost (initialState []) 7 5 rfl (checkout shopHost)
      (by simp)).2.1⟩

/-- Claim C10.  A call of `showNotification` replaces the displayed text and kind,
shows the notification and adds a hide timer due 3000 ms later; a hide timer that
fires hides whatever is displayed; and there is a schedule of two calls, the second
1000 ms after the first, where the callback of the first call hides the second
notification 2000 ms after it was shown, while the timer of the second call is
still pending. -/
theorem notification_hidden_early (h : Host) :
    (∀ (s : State) (m : String) (k : Kind),
      (showNotification m k s).state.dom.notification
        = { text := m, kind := k, shown := true } ∧
      (showNotification m k s).state.timers
        = s.timers ++ [{ due := s.now + 3000, action := .hideNotification }]) ∧
    (∀ s : State,
      (runTimer h .hideNotification s).state.dom.notification
        = { s.dom.notification with shown := false }) ∧
    ∃ (d1 d2 : Nat) (s1 s2 s3 s4 : State) (r : Run Unit),
      d1 < 3000 ∧ d2 < 3000 ∧
      s1 = (showNotification "first" .success (initialState [])).state ∧
      elapse d1 s1 = some s2 ∧
      s3 = (showNotification "second" .error s2).state ∧
      elapse d2 s3 = some s4 ∧
      fireDue h s4 = some r ∧
      r.state.dom.notification = { text := "second", kind := .error, shown := false } ∧
      r.state.timers = [{ due := s2.now + 3000, action := .hideNotification }] := by
  refine ⟨fun s m k => by simp [showNotification, setTimeout],
    fun s => by simp [runTimer], 1000, 2000, _, _, _, _, _, by decide, by decide, rfl,
    rfl, rfl, rfl, rfl, rfl, rfl⟩

theorem loadCart_frame (h : Host) (s : State) :
    (loadCart h s).result = .ok () ∧ (loadCart h s).state.notices = s.notices ∧
    (loadCart h s).state.currentUser = s.currentUser ∧
    (∀ u, s.currentUser = .user u →
      (loadCart h s).state.requests = s.requests ++ [.getCart u.id]) := by
  unfold loadCart
  cases hu : s.currentUser with
  | null => simp [currentUserId, hu, consoleLine]
  | undefined => simp [currentUserId, hu, consoleLine]
  | user u =>
    cases hf : h.getCart (s.requests ++ [.getCart u.id]) with
    | networkError => simp [currentUserId, hu, hf, awaitFetch, consoleLine]
    | response r =>
      rcases r with ⟨ok, _ | ⟨_ | _⟩⟩ <;>
      simp [currentUserId, hu, hf, awaitFetch, awaitJson, consoleLine, updateCartCount,
        displayCart]

theorem loadCart_run (h : Host) (s : State) :
    loadCart h s = ⟨after (loadCart h) s, .ok ()⟩ := by
  have hr := (loadCart_frame h s).1
  unfold after
  cases hx : loadCart h s with
  | mk st res => rw [hx] at hr; simp at hr; simp [hr]

theorem after_loadCart (h : Host) (s : State) (u : User) (hu : s.currentUser = .user u) :
    (after (loadCart h) s).notices = s.notices ∧
    (after (loadCart h) s).requests = s.requests ++ [.getCart u.id] :=
  ⟨(loadCart_frame h s).2.1, (loadCart_frame h s).2.2.2 u hu⟩

/-- The callback of the checkout timer, `showTab` on orders, always throws: outside an
event dispatch the global `event` is undefined.  Sections, orders list and requests
stay as they were. -/
theorem showOrdersTab_timer_throws (h : Host) (s : State) :
    (runTimer h .showOrdersTab s).result = .error .typeError ∧
    (runTimer h .showOrdersTab s).state.dom.ordersActive = s.dom.ordersActive ∧
    (runTimer h .showOrdersTab s).state.dom.productsDisplay = s.dom.productsDisplay ∧
    (runTimer h .showOrdersTab s).state.dom.ordersList = s.dom.ordersList ∧
    (runTimer h .showOrdersTab s).state.requests = s.requests := by
  simp [runTimer, showTab]

/-- Claim C5, evaluated at the scenario.  On the signed-in page with the widget in
the cart, a confirmed checkout answered `{total: 19.98}` shows
`Order completed! Total: $19.98`, reloads cart and products and registers the
1500 ms timer; when that timer fires, `showTab` on orders throws a TypeError, the
orders section is not active, the products section stays the visible one, the
orders list is untouched and no orders request is issued. -/
theorem checkout_then_timer_throws :
    (checkout shopHost signedIn).result = .ok () ∧
    (checkout shopHost signedIn).state.notices
      = [("Order completed! Total: $19.98", Kind.success)] ∧
    (checkout shopHost signedIn).state.requests = [.checkout 1, .getCart 1, .listProducts] ∧
    (checkout shopHost signedIn).state.timers
      = [{ due := 3000, action := .hideNotification }, { due := 1500, action := .showOrdersTab }] ∧
    ∃ (s1 : State) (r : Run Unit),
      elapse 1500 (checkout shopHost signedIn).state = some s1 ∧
      fireDue shopHost s1 = some r ∧
      r.result = .error .typeError ∧
      r.state.dom.ordersActive = false ∧
      visibleSections r.state.dom = ["products"] ∧
      r.state.dom.ordersList = .pristine ∧
      r.state.requests = [.checkout 1, .getCart 1, .listProducts] := by
  refine ⟨rfl, by decide!, by decide, by decide, _, _, rfl, rfl, rfl, by decide, by decide,
    by decide, by decide⟩

/-- Counterexample to C8.  The login succeeds and the products request fails with a
network error: `init` still requests and renders the cart, and the only
notification is `Failed to load products`, not the generic one. -/
theorem init_products_failure_counterexample :
    listFailed (productsDownHost.listProducts [.login "demo@example.com", .listProducts])
      = true ∧
    (init productsDownHost (initialState [])).state.requests
      = [.login "demo@example.com", .listProducts, .getCart 1] ∧
    (init productsDownHost (initialState [])).state.dom.cartCount = "1" ∧
    (init productsDownHost (initialState [])).state.notices
      = [("Failed to load products", Kind.error)] := by
  refine ⟨by decide, by decide, by decide, by decide⟩

/-- Claim C8 as amended.  When the login step fails (network error, undecodable
body, or a body without user), `init` issues no further request and emits exactly
one notification, `Failed to initialize app` of kind error.  When the login
succeeds and the products step fails, `loadProducts` reports it by its own
`Failed to load products`, which is the only notification, and `init` goes on to
request the cart. -/
theorem init_failure_paths (h : Host) (s : State) :
    (loginFailed (h.login (s.requests ++ [.login "demo@example.com"])) = true →
      (init h s).result = .ok () ∧
      (init h s).state.requests = s.requests ++ [.login "demo@example.com"] ∧
      (init h s).state.notices = s.notices ++ [("Failed to initialize app", Kind.error)]) ∧
    (∀ (ok : Bool) (u : User),
      h.login (s.requests ++ [.login "demo@example.com"])
        = .response ⟨ok, .json (.value u)⟩ →
      listFailed (h.listProducts (s.requests ++ [.login "demo@example.com", .listProducts]))
        = true →
      (init h s).result = .ok () ∧
      (init h s).state.requests
        = s.requests ++ [.login "demo@example.com", .listProducts, .getCart u.id] ∧
      (init h s).state.notices = s.notices ++ [("Failed to load products", Kind.error)]) := by
  constructor
  · intro hf
    unfold init
    cases hl : h.login (s.requests ++ [.login "demo@example.com"]) with
    | networkError => simp [hl, awaitFetch, consoleLine, showNotification, setTimeout]
    | response r =>
      rcases r with ⟨ok, _ | ⟨_ | _⟩⟩
      · simp [hl, awaitFetch, awaitJson, consoleLine, showNotification, setTimeout]
      · simp [hl, awaitFetch, awaitJson, consoleLine, showNotification, setTimeout]
      · simp [hl, loginFailed] at hf
  · intro ok u hl hp
    unfold init
    cases hlp : h.listProducts (s.requests ++ [.login "demo@example.com", .listProducts]) with
    | networkError =>
      simp [hl, awaitFetch, awaitJson, consoleLine, loadProducts, hlp, showNotification,
        setTimeout, loadCart_run]
      constructor
      · rw [(after_loadCart h _ u rfl).2]; simp
      · rw [(after_loadCart h _ u rfl).1]
    | response r =>
      rcases r with ⟨okp, _ | ⟨_ | _⟩⟩
      · simp [hl, awaitFetch, awaitJson, consoleLine, loadProducts, hlp, showNotification,
          setTimeout, loadCart_run]
        constructor
        · rw [(after_loadCart h _ u rfl).2]; simp
        · rw [(after_loadCart h _ u rfl).1]
      · simp [hl, awaitFetch, awaitJson, consoleLine, loadProducts, hlp, showNotification,
          setTimeout, loadCart_run]
        constructor
        · rw [(after_loadCart h _ u rfl).2]; simp
        · rw [(after_loadCart h _ u rfl).1]
      · simp [hlp, listFailed] at hp

/-- Witness of C8 as amended: the bootstrap with the products endpoint down. -/
theorem init_failure_paths_witness :
    (init productsDownHost (initialState [])).state.requests
        = [] ++ [Request.login "demo@example.com", .listProducts, .getCart demoUser.id] ∧
    (init productsDownHost (initialState [])).state.notices
        = [] ++ [("Failed to load products", Kind.error)] :=
  ((init_failure_paths productsDownHost (initialState [])).2 true demoUser rfl rfl).2

/-- The function `loadCart` never reads `response.ok`: a decodable body is stored in
`currentCart` whatever the status. -/
theorem loadCart_ignores_status (h : Host) (s : State) (u : User) (ok : Bool)
    (j : Json (List CartItem)) (hu : s.currentUser = .user u)
    (hc : h.getCart (s.requests ++ [.getCart u.id]) = .response ⟨ok, .json j⟩) :
    (loadCart h s).state.currentCart = j := by
  cases j <;>
  simp [loadCart, currentUserId, hu, hc, awaitFetch, awaitJson, consoleLine, updateCartCount,
    displayCart]

/-- Claim C9, evaluated at its own input.  On the signed-in page, whose cart holds
the widget, the cart request of `loadCart` is answered with status 500 and the valid
JSON body `[]`: `loadCart` returns normally, and `currentCart` is then `[]` and the
badge shows 0, so `currentCart` did not keep its previous value.  With an error
object as the body of the 500 response, `currentCart` becomes that error object, the
badge text is empty and the error of the rendering is only logged. -/
theorem loadCart_non2xx_overwrites_cart :
    cartErrorHost.getCart [.getCart 1] = .response ⟨false, .json (.value [])⟩ ∧
    signedIn.currentCart = .value [widget] ∧
    (loadCart cartErrorHost signedIn).result = .ok () ∧
    (loadCart cartErrorHost signedIn).state.requests = [.getCart 1] ∧
    (loadCart cartErrorHost signedIn).state.currentCart = .value [] ∧
    (loadCart cartErrorHost signedIn).state.currentCart ≠ signedIn.currentCart ∧
    (loadCart cartErrorHost signedIn).state.dom.cartCount = "0" ∧
    (loadCart cartErrorHost signedIn).state.notices = [] ∧
    cartFailureHost.getCart [.getCart 1]
      = .response ⟨false, .json (.errorObject "Internal Server Error")⟩ ∧
    (loadCart cartFailureHost signedIn).state.currentCart
      = .errorObject "Internal Server Error" ∧
    (loadCart cartFailureHost signedIn).state.currentCart ≠ signedIn.currentCart ∧
    (loadCart cartFailureHost signedIn).state.dom.cartCount = "" ∧
    (loadCart cartFailureHost signedIn).state.console = ["Error loading cart:"] := by
  refine ⟨rfl, rfl, rfl, by decide, by decide, by decide, by decide, by decide, rfl,
    by decide, by decide, by decide, by decide⟩

/-- The failures that do leave the session alone.  `currentUser` and `currentCart`
after a handler equal their values before it: for `init` when the login fails in
transport or decoding;
for `loadProducts` and `loadOrders` always; for `loadCart` when the cart request
fails in transport or decoding; for `addToCart` and `removeFromCart` when the
mutating request is rejected (network error or non-2xx), or succeeds and the
following cart request fails in transport or decoding; for `checkout` when the
checkout request is rejected or fails in transport or decoding. -/
theorem failed_call_keeps_session (h : Host) (s : State) :
    (Fetch.undecodable (h.login (s.requests ++ [.login "demo@example.com"])) = true →
      Unchanged s (init h s)) ∧
    Unchanged s (loadProducts h s) ∧
    Unchanged s (loadOrders h s) ∧
    (∀ u : User, s.currentUser = .user u →
      Fetch.undecodable (h.getCart (s.requests ++ [.getCart u.id])) = true →
      Unchanged s (loadCart h s)) ∧
    (∀ (u : User) (m : Mutation), s.currentUser = .user u →
      Fetch.rejected (m.oracle h (s.requests ++ [m.request u.id])) = true →
      Unchanged s (m.run h s)) ∧
    (∀ (u : User) (m : Mutation) (b : Body Unit), s.currentUser = .user u →
      m.oracle h (s.requests ++ [m.request u.id]) = .response ⟨true, b⟩ →
      Fetch.undecodable (h.getCart (s.requests ++ [m.request u.id, .getCart u.id])) = true →
      Unchanged s (m.run h s)) ∧
    (∀ u : User, s.currentUser = .user u →
      (Fetch.rejected (h.checkout (s.requests ++ [.checkout u.id])) = true ∨
        Fetch.undecodable (h.checkout (s.requests ++ [.checkout u.id])) = true) →
      Unchanged s (checkout h s)) := by
  refine ⟨?_, ?_, ?_, ?_, ?_, ?_, ?_⟩
  · intro hf
    unfold init Unchanged
    cases hl : h.login (s.requests ++ [.login "demo@example.com"]) with
    | networkError => simp [hl, awaitFetch, consoleLine, showNotification, setTimeout]
    | response r =>
      rcases r with ⟨ok, _ | j⟩
      · simp [hl, awaitFetch, awaitJson, consoleLine, showNotification, setTimeout]
      · simp [hl, Fetch.undecodable] at hf
  · exact ⟨(loadProducts_frame h s).2.1.1, (loadProducts_frame h s).2.1.2.1⟩
  · exact ⟨(loadOrders_frame h s).2.1, (loadOrders_frame h s).2.2.1⟩
  · intro u hu hf
    unfold loadCart Unchanged
    cases hl : h.getCart (s.requests ++ [.getCart u.id]) with
    | networkError => simp [hl, hu, currentUserId, awaitFetch, consoleLine]
    | response r =>
      rcases r with ⟨ok, _ | j⟩
      · simp [hl, hu, currentUserId, awaitFetch, awaitJson, consoleLine]
      · simp [hl, Fetch.undecodable] at hf
  · intro u m hu hf
    unfold Unchanged
    cases m <;> simp only [Mutation.run, Mutation.oracle, Mutation.request] at * <;>
    rename_i x <;>
    first
    | (cases hl : h.addToCart (s.requests ++ [.addToCart u.id x 1]) with
      | networkError =>
        simp [addToCart, hl, hu, currentUserId, awaitFetch, consoleLine, showNotification,
          setTimeout]
      | response r =>
        have hok : r.ok = false := by simpa [hl, Fetch.rejected] using hf
        simp [addToCart, hl, hu, hok, currentUserId, awaitFetch, consoleLine,
          showNotification, setTimeout])
    | (cases hl : h.removeFromCart (s.requests ++ [.removeFromCart u.id x]) with
      | networkError =>
        simp [removeFromCart, hl, hu, currentUserId, awaitFetch, consoleLine,
          showNotification, setTimeout]
      | response r =>
        have hok : r.ok = false := by simpa [hl, Fetch.rejected] using hf
        simp [removeFromCart, hl, hu, hok, currentUserId, awaitFetch, consoleLine,
          showNotification, setTimeout])
  · intro u m b hu hm hf
    unfold Unchanged
    cases m <;> simp only [Mutation.run, Mutation.oracle, Mutation.request] at * <;>
    rename_i x <;>
    first
    | (cases hl : h.getCart (s.requests ++ [.addToCart u.id x 1, .getCart u.id]) with
      | networkError =>
        simp [addToCart, loadCart, hl, hu, hm, currentUserId, awaitFetch, consoleLine,
          showNotification, setTimeout]
      | response r =>
        rcases r with ⟨ok, _ | j⟩
        · simp [addToCart, loadCart, hl, hu, hm, currentUserId, awaitFetch, awaitJson,
            consoleLine, showNotification, setTimeout]
        · simp [hl, Fetch.undecodable] at hf)
    | (cases hl : h.getCart (s.requests ++ [.removeFromCart u.id x, .getCart u.id]) with
      | networkError =>
        simp [removeFromCart, loadCart, hl, hu, hm, currentUserId, awaitFetch, consoleLine,
          showNotification, setTimeout]
      | response r =>
        rcases r with ⟨ok, _ | j⟩
        · simp [removeFromCart, loadCart, hl, hu, hm, currentUserId, awaitFetch, awaitJson,
            consoleLine, showNotification, setTimeout]
        · simp [hl, Fetch.undecodable] at hf)
  · intro u hu hf
    unfold checkout Unchanged
    by_cases hc : cartLength s.currentCart = some 0
    · simp [hc, showNotification, setTimeout]
    · cases hy : h.confirm s.prompts.length
      · simp [hc, hy, confirm]
      · cases hl : h.checkout (s.requests ++ [.checkout u.id]) with
        | networkError =>
          simp [hc, hy, hl, hu, confirm, currentUserId, awaitFetch, consoleLine,
            showNotification, setTimeout]
        | response r =>
          rcases r with ⟨ok, body⟩
          cases ok
          · simp [hc, hy, hl, hu, confirm, currentUserId, awaitFetch, consoleLine,
              showNotification, setTimeout]
          · rcases body with _ | j
            · simp [hc, hy, hl, hu, confirm, currentUserId, awaitFetch, awaitJson,
                consoleLine, showNotification, setTimeout]
            · simp [hl, Fetch.undecodable, Fetch.rejected] at hf

/-- The sibling handler `addToCart` reads `response.ok`: an add-to-cart request
answered with status 500 leaves the session as it was. -/
theorem addToCart_non2xx_keeps_session :
    Unchanged signedIn (addToCart rejectingHost 7 signedIn) :=
  (failed_call_keeps_session rejectingHost signedIn).2.2.2.2.1 demoUser (.add 7) rfl rfl

/-- Counterexample to C3.  For the cart holding one item of the exact decimal
price 1.015 and quantity 1, the rendered line total and cart total are 1.01, while
the exact sum 1.015 formatted to two decimal places is 1.02.  For the cart holding
one item of the integer price 9007199254740993 the rendered total ends in 992.00,
while the exact sum ends in 993.00. -/
theorem cart_total_inexact_counterexample :
    cartView shopHost [gadget.parse]
      = .entries [⟨"Gadget", "$1.01 x 1 = $1.01", 9⟩] "Total: $1.01" ∧
    "Total: $" ++ formatExact2 (exactTotal [gadget]) = "Total: $1.02" ∧
    cartView shopHost [ingot.parse]
      = .entries [⟨"Ingot", "$9007199254740992.00 x 1 = $9007199254740992.00", 10⟩]
          "Total: $9007199254740992.00" ∧
    "Total: $" ++ formatExact2 (exactTotal [ingot]) = "Total: $9007199254740993.00" := by
  refine ⟨by decide!, by decide!, by decide!, by decide!⟩

/-! ## Exactness of the rendered amounts -/

theorem bitLengthAux_zero (fuel : Nat) : bitLengthAux fuel 0 = 0 := by
  cases fuel <;> simp [bitLengthAux]

theorem pow_bitLengthAux_le (fuel : Nat) : ∀ n : Nat, n ≤ fuel → n ≠ 0 →
    2 ^ (bitLengthAux fuel n - 1) ≤ n := by
  induction fuel with
  | zero => intro n h0 hn; omega
  | succ fuel ih =>
    intro n hle hn
    simp only [bitLengthAux, hn, if_false, Nat.add_sub_cancel]
    by_cases h2 : n / 2 = 0
    · rw [h2, bitLengthAux_zero]; simp; omega
    · have hle2 : n / 2 ≤ fuel := by omega
      have := ih (n / 2) hle2 h2
      have hpos : 1 ≤ bitLengthAux fuel (n / 2) := by
        cases fuel with
        | zero => omega
        | succ f => simp [bitLengthAux, h2]
      have h3 : 2 ^ bitLengthAux fuel (n / 2) = 2 * 2 ^ (bitLengthAux fuel (n / 2) - 1) := by
        conv_lhs => rw [← Nat.sub_add_cancel hpos]
        rw [pow_succ]; ring
      rw [h3]; omega

theorem pow_gridShift_le (q : Nat) (hs : 1 ≤ gridShift q) : 2 ^ (gridShift q + 52) ≤ q := by
  unfold gridShift at *
  have hq : q ≠ 0 := by
    rintro rfl
    simp [bitLength, bitLengthAux] at hs
  have := pow_bitLengthAux_le q q le_rfl hq
  unfold bitLength at *
  have e : bitLengthAux q q - 53 + 52 = bitLengthAux q q - 1 := by omega
  rw [e]; exact this

theorem roundNearestEven_bounds (num den : Nat) (hden : 0 < den) :
    2 * (roundNearestEven num den * den) ≤ 2 * num + den ∧
    2 * num ≤ 2 * (roundNearestEven num den * den) + den := by
  have hdm := Nat.div_add_mod num den
  have hlt := Nat.mod_lt num hden
  unfold roundNearestEven
  simp only
  have e1 : (num / den + 1) * den = num / den * den + den := by ring
  have e2 : num / den * den = den * (num / den) := by ring
  split_ifs <;> (try rw [e1]) <;> rw [e2] <;> omega

theorem roundUnits_error (num den : Nat) (hden : 0 < den) :
    |(roundUnits num den : ℚ) - (num : ℚ) / den| ≤ 1 / 2 + ((num : ℚ) / den) / 2 ^ 53 := by
  unfold roundUnits
  simp only
  set s := gridShift (num / den) with hs
  have hD : 0 < den * 2 ^ s := Nat.mul_pos hden (by positivity)
  obtain ⟨b1, b2⟩ := roundNearestEven_bounds num (den * 2 ^ s) hD
  set r := roundNearestEven num (den * 2 ^ s) with hr
  have hdq : (0 : ℚ) < den := by exact_mod_cast hden
  have hpq : (0 : ℚ) < (2 : ℚ) ^ s := by positivity
  have c1 : (2 : ℚ) * (r * (den * 2 ^ s)) ≤ 2 * num + den * 2 ^ s := by exact_mod_cast b1
  have c2 : (2 : ℚ) * num ≤ 2 * (r * (den * 2 ^ s)) + den * 2 ^ s := by exact_mod_cast b2
  have hx : (num : ℚ) = (num : ℚ) / den * den := by field_simp
  set x : ℚ := (num : ℚ) / den with hxdef
  -- half a grid step
  have e1 : |(r : ℚ) * 2 ^ s - x| ≤ 2 ^ s / 2 := by
    rw [abs_le]
    constructor
    · have : (2 : ℚ) * (x * den) ≤ 2 * (r * (den * 2 ^ s)) + den * 2 ^ s := by rw [← hx]; exact c2
      have h3 : den * (2 * x) ≤ den * (2 * (r * 2 ^ s) + 2 ^ s) := by nlinarith
      have := le_of_mul_le_mul_left h3 hdq
      linarith
    · have : (2 : ℚ) * (r * (den * 2 ^ s)) ≤ 2 * (x * den) + den * 2 ^ s := by rw [← hx]; exact c1
      have h3 : den * (2 * (r * 2 ^ s)) ≤ den * (2 * x + 2 ^ s) := by nlinarith
      have := le_of_mul_le_mul_left h3 hdq
      linarith
  have e2 : (2 : ℚ) ^ s / 2 ≤ 1 / 2 + x / 2 ^ 53 := by
    have hx0 : 0 ≤ x := by positivity
    rcases Nat.eq_zero_or_pos s with h0 | h1
    · rw [h0]; simp
      positivity
    · have hle := pow_gridShift_le (num / den) h1
      rw [← hs] at hle
      have hle2 : ((2 ^ (s + 52) : ℕ) : ℚ) ≤ ((num / den : ℕ) : ℚ) := by exact_mod_cast hle
      have hle3 : ((num / den : ℕ) : ℚ) ≤ x := Nat.cast_div_le
      have hle4 : (2 : ℚ) ^ (s + 52) ≤ x := by
        have : ((2 ^ (s + 52) : ℕ) : ℚ) = (2 : ℚ) ^ (s + 52) := by push_cast; rfl
        rw [← this]; exact le_trans hle2 hle3
      have : (2 : ℚ) ^ s / 2 = 2 ^ (s + 52) / 2 ^ 53 := by
        rw [pow_add]; field_simp; ring
      rw [this]
      have : (2 : ℚ) ^ (s + 52) / 2 ^ 53 ≤ x / 2 ^ 53 := by
        apply div_le_div_of_nonneg_right hle4; positivity
      linarith
  push_cast
  exact le_trans e1 e2

theorem ofMagnitude_spec (num den : Nat) (hden : 0 < den)
    (hx : (num : ℚ) / den / 2 ^ 1074 ≤ 2 ^ 31) :
    ∃ u : Nat, ofMagnitude false num den = JSNum.fin (u : Int) ∧
      |unitsValue u - (num : ℚ) / den / 2 ^ 1074|
        ≤ (num : ℚ) / den / 2 ^ 1074 / 2 ^ 53 + 1 / 2 ^ 1075 := by
  have herr := roundUnits_error num den hden
  set x : ℚ := (num : ℚ) / den with hxdef
  have hx0 : 0 ≤ x := by positivity
  have hU : (0 : ℚ) < 2 ^ 1074 := by positivity
  have hxU : x ≤ 2 ^ 31 * 2 ^ 1074 := by
    have := (div_le_iff₀ hU).mp hx
    linarith
  refine ⟨roundUnits num den, ?_, ?_⟩
  · unfold ofMagnitude
    simp only
    have hlt : (roundUnits num den : ℚ) < 2 ^ 2098 := by
      have h1 := (abs_le.mp herr).2
      have h2 : x / 2 ^ 53 ≤ x := by
        apply div_le_self hx0; norm_num
      have h3 : (2 : ℚ) ^ 31 * 2 ^ 1074 * 2 + 1 / 2 < 2 ^ 2098 := by
        have : (2 : ℚ) ^ 2098 = 2 ^ 31 * 2 ^ 1074 * 2 ^ 993 := by rw [← pow_add, ← pow_add]
        rw [this]
        have h4 : (2 : ℚ) ^ 2 ≤ 2 ^ 993 := pow_le_pow_right₀ (by norm_num) (by norm_num)
        have h5 : (0 : ℚ) < 2 ^ 31 * 2 ^ 1074 := by positivity
        have h6 : (1 : ℚ) ≤ 2 ^ 31 * 2 ^ 1074 := one_le_mul_of_one_le_of_one_le
          (one_le_pow₀ (by norm_num)) (one_le_pow₀ (by norm_num))
        nlinarith
      linarith
    have hlt2 : roundUnits num den < 2 ^ 2098 := by exact_mod_cast hlt
    simp [hlt2]
  · unfold unitsValue
    have e : (roundUnits num den : ℚ) / 2 ^ 1074 - x / 2 ^ 1074
        = ((roundUnits num den : ℚ) - x) / 2 ^ 1074 := by ring
    rw [e, abs_div, abs_of_pos hU]
    rw [div_le_iff₀ hU]
    have e2 : (x / 2 ^ 1074 / 2 ^ 53 + 1 / 2 ^ 1075) * 2 ^ 1074 = 1 / 2 + x / 2 ^ 53 := by
      have : (2 : ℚ) ^ 1075 = 2 ^ 1074 * 2 := by rw [pow_succ]
      rw [this]; field_simp; ring
    rw [e2]; exact herr

theorem tiny_unit : (1 : ℚ) / 2 ^ 1075 ≤ 1 / 2 ^ 64 := by
  apply one_div_le_one_div_of_le (by positivity)
  exact pow_le_pow_right₀ (by norm_num) (by norm_num)

theorem product_error (p q P Q : ℚ) (hp : 0 ≤ p) (hq : 0 ≤ q)
    (hpb : p ≤ 2 ^ 30) (hqb : q ≤ 2 ^ 30) (hpq : p * q ≤ 2 ^ 30)
    (hP : Rounded p P) (hQ : Rounded q Q) :
    |P * Q - p * q| ≤ 1 / 2 ^ 21 := by
  unfold Rounded at hP hQ
  have hη := tiny_unit
  set η : ℚ := 1 / 2 ^ 1075 with hηdef
  have hη0 : 0 ≤ η := by positivity
  have e : P * Q - p * q = (P - p) * q + p * (Q - q) + (P - p) * (Q - q) := by ring
  have b1 : |(P - p) * q| ≤ (p / 2 ^ 53 + η) * q := by
    rw [abs_mul, abs_of_nonneg hq]
    exact mul_le_mul_of_nonneg_right hP hq
  have b2 : |p * (Q - q)| ≤ p * (q / 2 ^ 53 + η) := by
    rw [abs_mul, abs_of_nonneg hp]
    exact mul_le_mul_of_nonneg_left hQ hp
  have hP' : |P - p| ≤ 1 / 2 ^ 22 := by
    have : p / 2 ^ 53 ≤ 2 ^ 30 / 2 ^ 53 := by
      apply div_le_div_of_nonneg_right hpb; positivity
    have : (2 : ℚ) ^ 30 / 2 ^ 53 + 1 / 2 ^ 64 ≤ 1 / 2 ^ 22 := by norm_num
    linarith
  have hQ' : |Q - q| ≤ 1 / 2 ^ 22 := by
    have : q / 2 ^ 53 ≤ 2 ^ 30 / 2 ^ 53 := by
      apply div_le_div_of_nonneg_right hqb; positivity
    have : (2 : ℚ) ^ 30 / 2 ^ 53 + 1 / 2 ^ 64 ≤ 1 / 2 ^ 22 := by norm_num
    linarith
  have b3 : |(P - p) * (Q - q)| ≤ 1 / 2 ^ 22 * (1 / 2 ^ 22) := by
    rw [abs_mul]
    exact mul_le_mul hP' hQ' (abs_nonneg _) (by positivity)
  have c1 : (p / 2 ^ 53 + η) * q = p * q / 2 ^ 53 + η * q := by ring
  have c2 : p * (q / 2 ^ 53 + η) = p * q / 2 ^ 53 + η * p := by ring
  have c3 : p * q / 2 ^ 53 ≤ 2 ^ 30 / 2 ^ 53 := by
    apply div_le_div_of_nonneg_right hpq; positivity
  have c4 : η * q ≤ 1 / 2 ^ 64 * 2 ^ 30 := mul_le_mul hη hqb hq (by positivity)
  have c5 : η * p ≤ 1 / 2 ^ 64 * 2 ^ 30 := mul_le_mul hη hpb hp (by positivity)
  rw [e]
  have t1 := abs_add ((P - p) * q + p * (Q - q)) ((P - p) * (Q - q))
  have t2 := abs_add ((P - p) * q) (p * (Q - q))
  have fin : (2 : ℚ) ^ 30 / 2 ^ 53 + 1 / 2 ^ 64 * 2 ^ 30 + (2 ^ 30 / 2 ^ 53 + 1 / 2 ^ 64 * 2 ^ 30)
      + 1 / 2 ^ 22 * (1 / 2 ^ 22) ≤ 1 / 2 ^ 21 := by norm_num
  linarith

theorem line_error (p q P Q T : ℚ) (hp : 0 ≤ p) (hq : 0 ≤ q)
    (hpb : p ≤ 2 ^ 30) (hqb : q ≤ 2 ^ 30) (hpq : p * q ≤ 2 ^ 30)
    (hP : Rounded p P) (hQ : Rounded q Q) (hT : Rounded (P * Q) T) :
    |T - p * q| ≤ 1 / 2 ^ 20 := by
  have h1 := product_error p q P Q hp hq hpb hqb hpq hP hQ
  unfold Rounded at hT
  have hη := tiny_unit
  have hPQ : P * Q ≤ 2 ^ 31 := by
    have := (abs_le.mp h1).2
    have : (2 : ℚ) ^ 30 + 1 / 2 ^ 21 ≤ 2 ^ 31 := by norm_num
    linarith
  have c : P * Q / 2 ^ 53 ≤ 2 ^ 31 / 2 ^ 53 := by
    apply div_le_div_of_nonneg_right hPQ; positivity
  have e : T - p * q = (T - P * Q) + (P * Q - p * q) := by ring
  rw [e]
  have t := abs_add (T - P * Q) (P * Q - p * q)
  have fin : (2 : ℚ) ^ 31 / 2 ^ 53 + 1 / 2 ^ 64 + 1 / 2 ^ 21 ≤ 1 / 2 ^ 20 := by norm_num
  linarith

theorem sum_error (A a E S T S' : ℚ) (hAa : A + a ≤ 2 ^ 30)
    (hE : E ≤ 1) (hS : |S - A| ≤ E) (hT : |T - a| ≤ 1 / 2 ^ 20)
    (hS' : Rounded (S + T) S') :
    |S' - (A + a)| ≤ E + 1 / 2 ^ 19 := by
  unfold Rounded at hS'
  have hη := tiny_unit
  have s1 := (abs_le.mp hS).2
  have t1 := (abs_le.mp hT).2
  have hST : S + T ≤ 2 ^ 31 := by
    have : (2 : ℚ) ^ 30 + 1 + 1 / 2 ^ 20 ≤ 2 ^ 31 := by norm_num
    linarith
  have c : (S + T) / 2 ^ 53 ≤ 2 ^ 31 / 2 ^ 53 := by
    apply div_le_div_of_nonneg_right hST; positivity
  have e : S' - (A + a) = (S' - (S + T)) + ((S - A) + (T - a)) := by ring
  rw [e]
  have u1 := abs_add (S' - (S + T)) ((S - A) + (T - a))
  have u2 := abs_add (S - A) (T - a)
  have fin : (2 : ℚ) ^ 31 / 2 ^ 53 + 1 / 2 ^ 64 + 1 / 2 ^ 20 ≤ 1 / 2 ^ 19 := by norm_num
  linarith

theorem ofDecimal_spec (n k : Nat) (hx : (n : ℚ) / 10 ^ k ≤ 2 ^ 31) :
    ∃ u : Nat, ofDecimal n k = JSNum.fin (u : Int) ∧ Rounded ((n : ℚ) / 10 ^ k) (unitsValue u) := by
  have hden : 0 < 10 ^ k := by positivity
  have e : ((n * 2 ^ unitBits : ℕ) : ℚ) / ((10 ^ k : ℕ) : ℚ) / 2 ^ 1074 = (n : ℚ) / 10 ^ k := by
    unfold unitBits
    push_cast
    field_simp
    ring
  obtain ⟨u, h1, h2⟩ := ofMagnitude_spec (n * 2 ^ unitBits) (10 ^ k) hden (by rw [e]; exact hx)
  rw [e] at h2
  exact ⟨u, h1, h2⟩

theorem mul_spec (a b : Nat) (hx : unitsValue a * unitsValue b ≤ 2 ^ 31) :
    ∃ t : Nat, (JSNum.fin (a : Int)).mul (JSNum.fin (b : Int)) = JSNum.fin (t : Int) ∧
      Rounded (unitsValue a * unitsValue b) (unitsValue t) := by
  have hden : 0 < 2 ^ unitBits := by positivity
  have e : ((a * b : ℕ) : ℚ) / ((2 ^ unitBits : ℕ) : ℚ) / 2 ^ 1074
      = unitsValue a * unitsValue b := by
    unfold unitBits unitsValue
    push_cast
    field_simp
  obtain ⟨t, h1, h2⟩ := ofMagnitude_spec (a * b) (2 ^ unitBits) hden (by rw [e]; exact hx)
  rw [e] at h2
  refine ⟨t, ?_, h2⟩
  have ha : ¬ ((a : Int) < 0) := by omega
  have hb : ¬ ((b : Int) < 0) := by omega
  simp only [JSNum.mul, ha, hb, Int.natAbs_ofNat, ne_eq, not_true_eq_false, decide_False]
  exact h1

theorem add_spec (a b : Nat) (hx : unitsValue a + unitsValue b ≤ 2 ^ 31) :
    ∃ t : Nat, (JSNum.fin (a : Int)).add (JSNum.fin (b : Int)) = JSNum.fin (t : Int) ∧
      Rounded (unitsValue a + unitsValue b) (unitsValue t) := by
  have e : ((a + b : ℕ) : ℚ) / ((1 : ℕ) : ℚ) / 2 ^ 1074 = unitsValue a + unitsValue b := by
    unfold unitsValue
    push_cast
    field_simp
  obtain ⟨t, h1, h2⟩ := ofMagnitude_spec (a + b) 1 (by norm_num) (by rw [e]; exact hx)
  rw [e] at h2
  refine ⟨t, ?_, h2⟩
  have hab : ¬ ((a : Int) + (b : Int) < 0) := by omega
  have hn : ((a : Int) + (b : Int)).natAbs = a + b := by omega
  simp only [JSNum.add, hab, hn, decide_False]
  exact h1

theorem floor_cents (C : Nat) : ⌊(C : ℚ) / 100 * 100 + 1 / 2⌋.toNat = C := by
  have : ⌊(C : ℚ) / 100 * 100 + 1 / 2⌋ = (C : Int) := by
    rw [Int.floor_eq_iff]
    constructor
    · push_cast; linarith [show (C : ℚ) / 100 * 100 = C by field_simp]
    · push_cast; linarith [show (C : ℚ) / 100 * 100 = C by field_simp]
  rw [this]; simp

theorem toFixed2_exact (nts : JSNum → String) (u C : Nat)
    (hnear : |unitsValue u - (C : ℚ) / 100| < 1 / 200) (hsmall : (C : ℚ) / 100 ≤ 2 ^ 31) :
    toFixed2 nts (JSNum.fin (u : Int)) = fixedText C := by
  have hU : (0 : ℚ) < 2 ^ 1074 := by positivity
  obtain ⟨l1, l2⟩ := abs_lt.mp hnear
  unfold unitsValue at l1 l2
  have hu : (u : ℚ) = (u : ℚ) / 2 ^ 1074 * 2 ^ 1074 := by field_simp
  set v : ℚ := (u : ℚ) / 2 ^ 1074 with hv
  -- bounds in units
  have q1 : (C : ℚ) * (2 * 2 ^ 1074) ≤ 200 * (u : ℚ) + 2 ^ 1074 := by
    rw [hu]; nlinarith
  have q2 : 200 * (u : ℚ) + 2 ^ 1074 < ((C : ℚ) + 1) * (2 * 2 ^ 1074) := by
    rw [hu]; nlinarith
  have q3 : (u : ℚ) < 10 ^ 21 * 2 ^ 1074 := by
    rw [hu]
    have : v < 10 ^ 21 := by
      have : (2 : ℚ) ^ 31 + 1 / 200 < 10 ^ 21 := by norm_num
      linarith
    exact mul_lt_mul_of_pos_right this hU
  have n1 : C * (2 * 2 ^ 1074) ≤ 200 * u + 2 ^ 1074 := by exact_mod_cast q1
  have n2 : 200 * u + 2 ^ 1074 < (C + 1) * (2 * 2 ^ 1074) := by exact_mod_cast q2
  have n3 : ¬ (10 ^ 21 * 2 ^ 1074 ≤ u) := by
    have : u < 10 ^ 21 * 2 ^ 1074 := by exact_mod_cast q3
    omega
  have hdiv : nearestHundredths u = C := by
    unfold nearestHundredths unitBits
    have e : (2 : ℕ) ^ (1074 + 1) = 2 * 2 ^ 1074 := by rw [pow_succ]; ring
    rw [e]
    apply Nat.div_eq_of_lt_le
    · exact n1
    · exact n2
  have hneg : ¬ ((u : Int) < 0) := by omega
  simp only [toFixed2, hneg, if_false, Int.natAbs_ofNat, unitBits, n3, hdiv]
  simp

theorem price_cents (d : DecimalItem) (hs : d.priceScale ≤ 2) :
    d.price = ((d.priceDigits * 10 ^ (2 - d.priceScale) : ℕ) : ℚ) / 100 := by
  unfold DecimalItem.price
  have h : d.priceScale = 0 ∨ d.priceScale = 1 ∨ d.priceScale = 2 := by omega
  rcases h with h | h | h <;> rw [h] <;> push_cast <;> norm_num
  ring

theorem exactLine_eq (d : DecimalItem) : d.exactLine = d.price * d.quantity := rfl

theorem line_cents (d : DecimalItem) (hs : d.priceScale ≤ 2) :
    d.exactLine = ((d.priceDigits * 10 ^ (2 - d.priceScale) * d.quantity : ℕ) : ℚ) / 100 := by
  rw [exactLine_eq, price_cents d hs]
  push_cast
  ring

theorem price_nonneg (d : DecimalItem) : 0 ≤ d.price := by
  unfold DecimalItem.price; positivity

theorem exactLine_nonneg (d : DecimalItem) : 0 ≤ d.exactLine := by
  unfold DecimalItem.exactLine; positivity

theorem exactTotal_nonneg (c : List DecimalItem) : 0 ≤ exactTotal c := by
  unfold exactTotal
  apply List.sum_nonneg
  intro x hx
  simp only [List.mem_map] at hx
  obtain ⟨d, _, rfl⟩ := hx
  exact exactLine_nonneg d

theorem exactTotal_cons (d : DecimalItem) (c : List DecimalItem) :
    exactTotal (d :: c) = d.exactLine + exactTotal c := by
  simp [exactTotal]

theorem exactTotal_cents (c : List DecimalItem) (hs : ∀ d ∈ c, d.priceScale ≤ 2) :
    ∃ C : Nat, exactTotal c = (C : ℚ) / 100 := by
  induction c with
  | nil => exact ⟨0, by simp [exactTotal]⟩
  | cons d c ih =>
    obtain ⟨C, hC⟩ := ih (fun x hx => hs x (List.mem_cons_of_mem _ hx))
    refine ⟨d.priceDigits * 10 ^ (2 - d.priceScale) * d.quantity + C, ?_⟩
    rw [exactTotal_cons, hC, line_cents d (hs d (List.mem_cons_self _ _))]
    push_cast
    ring

theorem formatExact2_cents (C : Nat) : formatExact2 ((C : ℚ) / 100) = fixedText C := by
  unfold formatExact2
  rw [floor_cents]

/-- The doubles of one item: price, quantity and line total are finite, the line total is
within `2^-20` of the exact one, and both amounts print as the exact ones. -/
theorem item_spec (nts : JSNum → String) (d : DecimalItem) (hr : d.InRange)
    (hline : d.exactLine ≤ 2 ^ 30) :
    ∃ T : Nat,
      (ofDecimal d.priceDigits d.priceScale).mul (ofNat d.quantity) = JSNum.fin (T : Int) ∧
      |unitsValue T - d.exactLine| ≤ 1 / 2 ^ 20 ∧
      toFixed2 nts (ofDecimal d.priceDigits d.priceScale) = formatExact2 d.price ∧
      toFixed2 nts ((ofDecimal d.priceDigits d.priceScale).mul (ofNat d.quantity))
        = formatExact2 d.exactLine := by
  obtain ⟨hs, hq1, hq2⟩ := hr
  have hp0 := price_nonneg d
  have hq0 : (0 : ℚ) ≤ d.quantity := by positivity
  have hq1' : (1 : ℚ) ≤ d.quantity := by exact_mod_cast hq1
  have hqb : (d.quantity : ℚ) ≤ 2 ^ 30 := by
    have : (d.quantity : ℚ) ≤ 10 ^ 9 := by exact_mod_cast hq2
    have : (10 : ℚ) ^ 9 ≤ 2 ^ 30 := by norm_num
    linarith
  have hpl : d.price ≤ d.exactLine := by
    rw [exactLine_eq]; nlinarith
  have hpb : d.price ≤ 2 ^ 30 := le_trans hpl hline
  have hpq : d.price * d.quantity ≤ 2 ^ 30 := by rw [← exactLine_eq]; exact hline
  obtain ⟨P, hP, rP⟩ := ofDecimal_spec d.priceDigits d.priceScale
    (by have : d.price ≤ 2 ^ 31 := by linarith [show (2 : ℚ) ^ 30 ≤ 2 ^ 31 by norm_num]
        exact this)
  obtain ⟨Q, hQ, rQ⟩ := ofDecimal_spec d.quantity 0
    (by simp; linarith [show (2 : ℚ) ^ 30 ≤ 2 ^ 31 by norm_num])
  simp only [pow_zero, div_one] at rQ
  have hprod := product_error d.price d.quantity (unitsValue P) (unitsValue Q) hp0 hq0 hpb hqb
    hpq rP rQ
  have hPQ : unitsValue P * unitsValue Q ≤ 2 ^ 31 := by
    have := (abs_le.mp hprod).2
    have : (2 : ℚ) ^ 30 + 1 / 2 ^ 21 ≤ 2 ^ 31 := by norm_num
    linarith
  obtain ⟨T, hT, rT⟩ := mul_spec P Q hPQ
  have hTerr := line_error d.price d.quantity (unitsValue P) (unitsValue Q) (unitsValue T)
    hp0 hq0 hpb hqb hpq rP rQ rT
  rw [← exactLine_eq] at hTerr
  have hmul : (ofDecimal d.priceDigits d.priceScale).mul (ofNat d.quantity)
      = JSNum.fin (T : Int) := by
    rw [hP]; unfold ofNat; rw [hQ]; exact hT
  refine ⟨T, hmul, hTerr, ?_, ?_⟩
  · rw [hP, price_cents d hs, formatExact2_cents]
    apply toFixed2_exact
    · rw [← price_cents d hs]
      have rP' : |unitsValue P - d.price| ≤ d.price / 2 ^ 53 + 1 / 2 ^ 1075 := rP
      have : d.price / 2 ^ 53 ≤ 2 ^ 30 / 2 ^ 53 := by
        apply div_le_div_of_nonneg_right hpb; positivity
      have := tiny_unit
      have : (2 : ℚ) ^ 30 / 2 ^ 53 + 1 / 2 ^ 64 < 1 / 200 := by norm_num
      linarith
    · rw [← price_cents d hs]
      linarith [show (2 : ℚ) ^ 30 ≤ 2 ^ 31 by norm_num]
  · rw [hmul, line_cents d hs, formatExact2_cents]
    apply toFixed2_exact
    · rw [← line_cents d hs]
      have : (1 : ℚ) / 2 ^ 20 < 1 / 200 := by norm_num
      linarith
    · rw [← line_cents d hs]
      linarith [show (2 : ℚ) ^ 30 ≤ 2 ^ 31 by norm_num]

theorem cartTotal_fold_spec (c : List DecimalItem) :
    ∀ (S : Nat) (A E : ℚ), (∀ d ∈ c, d.InRange) → 0 ≤ A →
      |unitsValue S - A| ≤ E → E + (c.length : ℚ) / 2 ^ 19 ≤ 1 →
      A + exactTotal c ≤ 2 ^ 30 →
      ∃ S' : Nat,
        (c.map DecimalItem.parse).foldl
            (fun sum item => sum.add (item.product.price.mul item.quantity))
            (JSNum.fin (S : Int)) = JSNum.fin (S' : Int) ∧
        |unitsValue S' - (A + exactTotal c)| ≤ E + (c.length : ℚ) / 2 ^ 19 := by
  induction c with
  | nil =>
    intro S A E _ _ hS _ _
    refine ⟨S, rfl, ?_⟩
    simpa [exactTotal] using hS
  | cons d c ih =>
    intro S A E hr hA hS hE hB
    have hd := hr d (List.mem_cons_self _ _)
    have hrest : ∀ x ∈ c, x.InRange := fun x hx => hr x (List.mem_cons_of_mem _ hx)
    rw [exactTotal_cons] at hB
    have hl0 := exactLine_nonneg d
    have ht0 := exactTotal_nonneg c
    have hlen : ((d :: c).length : ℚ) = (c.length : ℚ) + 1 := by simp
    rw [hlen] at hE
    have hc0 : (0 : ℚ) ≤ (c.length : ℚ) / 2 ^ 19 := by positivity
    have hE1 : E ≤ 1 := by
      have : (0 : ℚ) ≤ ((c.length : ℚ) + 1) / 2 ^ 19 := by positivity
      linarith
    obtain ⟨T, hT, hTerr, -, -⟩ := item_spec (fun _ => "") d hd (by linarith)
    have hST : unitsValue S + unitsValue T ≤ 2 ^ 31 := by
      have s1 := (abs_le.mp hS).2
      have t1 := (abs_le.mp hTerr).2
      have : (2 : ℚ) ^ 30 + 1 + 1 / 2 ^ 20 ≤ 2 ^ 31 := by norm_num
      linarith
    obtain ⟨S1, hS1, rS1⟩ := add_spec S T hST
    have herr := sum_error A d.exactLine E (unitsValue S) (unitsValue T) (unitsValue S1)
      (by linarith) hE1 hS hTerr rS1
    have hE' : (E + 1 / 2 ^ 19) + (c.length : ℚ) / 2 ^ 19 ≤ 1 := by
      have : ((c.length : ℚ) + 1) / 2 ^ 19 = (c.length : ℚ) / 2 ^ 19 + 1 / 2 ^ 19 := by ring
      linarith
    obtain ⟨S', hS', hfin⟩ := ih S1 (A + d.exactLine) (E + 1 / 2 ^ 19) hrest (by linarith) herr
      hE' (by linarith)
    refine ⟨S', ?_, ?_⟩
    · simp only [List.map_cons, List.foldl_cons]
      have : (JSNum.fin (S : Int)).add
          ((DecimalItem.parse d).product.price.mul (DecimalItem.parse d).quantity)
          = JSNum.fin (S1 : Int) := by
        simp only [DecimalItem.parse]
        rw [hT]; exact hS1
      rw [this]; exact hS'
    · rw [exactTotal_cons, hlen]
      have e1 : A + (d.exactLine + exactTotal c) = A + d.exactLine + exactTotal c := by ring
      have e2 : E + ((c.length : ℚ) + 1) / 2 ^ 19 = E + 1 / 2 ^ 19 + (c.length : ℚ) / 2 ^ 19 := by
        ring
      rw [e1, e2]; exact hfin

theorem cartTotal_exact (nts : JSNum → String) (c : List DecimalItem)
    (hr : ∀ d ∈ c, d.InRange) (hlen : c.length ≤ 1000) (hB : exactTotal c ≤ 10 ^ 9) :
    toFixed2 nts (cartTotal (c.map DecimalItem.parse)) = formatExact2 (exactTotal c) := by
  have hlenq : (c.length : ℚ) ≤ 1000 := by exact_mod_cast hlen
  have hdiv : (c.length : ℚ) / 2 ^ 19 ≤ 1000 / 2 ^ 19 := by
    apply div_le_div_of_nonneg_right hlenq; positivity
  have hB30 : exactTotal c ≤ 2 ^ 30 := by
    have : (10 : ℚ) ^ 9 ≤ 2 ^ 30 := by norm_num
    linarith
  obtain ⟨S', hS', herr⟩ := cartTotal_fold_spec c 0 0 0 hr le_rfl
    (by simp [unitsValue]) (by
      have : (1000 : ℚ) / 2 ^ 19 ≤ 1 := by norm_num
      linarith) (by simpa using hB30)
  obtain ⟨C, hC⟩ := exactTotal_cents c (fun d hd => (hr d hd).1)
  unfold cartTotal
  have h0 : (JSNum.fin 0) = JSNum.fin ((0 : ℕ) : Int) := rfl
  rw [h0, hS', hC, formatExact2_cents]
  apply toFixed2_exact
  · rw [← hC]
    simp only [zero_add] at herr
    have : (1000 : ℚ) / 2 ^ 19 < 1 / 200 := by norm_num
    linarith
  · rw [← hC]
    linarith [show (2 : ℚ) ^ 30 ≤ 2 ^ 31 by norm_num]

theorem cartRow_exact (h : Host) (d : DecimalItem) (hr : d.InRange)
    (hline : d.exactLine ≤ 2 ^ 30) :
    cartRow h d.parse = exactRow h d := by
  obtain ⟨T, -, -, hp, hl⟩ := item_spec h.numberToString d hr hline
  simp only [cartRow, exactRow, DecimalItem.parse, hp, hl]

theorem exactLine_le_total (c : List DecimalItem) (d : DecimalItem) (hd : d ∈ c) :
    d.exactLine ≤ exactTotal c := by
  induction c with
  | nil => simp at hd
  | cons x c ih =>
    rw [exactTotal_cons]
    rcases List.mem_cons.mp hd with rfl | hm
    · linarith [exactTotal_nonneg c]
    · linarith [ih hm, exactLine_nonneg x]

/-- Within the range the markup of the cart is the exact one: every row and the
cart-wide total print the exact amounts. -/
theorem cartView_exact (h : Host) (c : List DecimalItem) (hne : c ≠ [])
    (hr : ∀ d ∈ c, d.InRange) (hlen : c.length ≤ 1000) (hB : exactTotal c ≤ 10 ^ 9) :
    cartView h (c.map DecimalItem.parse)
      = .entries (c.map (exactRow h)) ("Total: $" ++ formatExact2 (exactTotal c)) := by
  have hl : ¬ (c.map DecimalItem.parse).length = 0 := by
    simp [hne]
  have hB30 : exactTotal c ≤ 2 ^ 30 := by
    have : (10 : ℚ) ^ 9 ≤ 2 ^ 30 := by norm_num
    linarith
  unfold cartView
  rw [if_neg hl, cartTotal_exact h.numberToString c hr hlen hB]
  congr 1
  rw [List.map_map]
  apply List.map_congr_left
  intro d hd
  exact cartRow_exact h d (hr d hd) (le_trans (exactLine_le_total c d hd) hB30)

theorem widget_in_range : ∀ d ∈ [widgetDecimal], d.InRange := by
  intro d hd
  rw [List.mem_singleton.mp hd]
  refine ⟨by decide, by decide, by decide⟩

theorem widget_total_bound : exactTotal [widgetDecimal] ≤ 10 ^ 9 := by
  norm_num [exactTotal, DecimalItem.exactLine, widgetDecimal]

/-- Claim C3 as amended.  For every non-empty cart of at most 1000 items whose
prices are exact decimals of at most two fractional digits, whose quantities are
integers between 1 and `10^9` and whose exact total is at most `10^9`, the markup of
`displayCart` has one row per item whose line total is the exact `p * q` formatted to
two decimal places, and its cart-wide total is the text `Total: $` followed by the
exact sum of `p * q` formatted to two decimal places; for the cart of the widget
(9.99 times 2) the rendered total is `Total: $19.98`. -/
theorem cart_total_exact_in_range (h : Host) (c : List DecimalItem) (hne : c ≠ [])
    (hr : ∀ d ∈ c, d.InRange) (hlen : c.length ≤ 1000) (hB : exactTotal c ≤ 10 ^ 9) :
    cartView h (c.map DecimalItem.parse)
      = .entries (c.map (exactRow h)) ("Total: $" ++ formatExact2 (exactTotal c)) ∧
    cartView h [widget] = .entries [exactRow h widgetDecimal] "Total: $19.98" := by
  refine ⟨cartView_exact h c hne hr hlen hB, ?_⟩
  have hw := cartView_exact h [widgetDecimal] (by simp) widget_in_range (by simp)
    widget_total_bound
  have ht : "Total: $" ++ formatExact2 (exactTotal [widgetDecimal]) = "Total: $19.98" := by
    decide!
  rw [ht] at hw
  exact hw

/-- Witness of C3 as amended: the cart of the widget on the shop host. -/
theorem cart_total_exact_in_range_witness :
    cartView shopHost [widget]
      = .entries [⟨"Widget", "$9.99 x 2 = $19.98", 5⟩] "Total: $19.98" :=
  (cart_total_exact_in_range shopHost [widgetDecimal] (by simp) widget_in_range (by simp)
    widget_total_bound).2.trans (by decide!)

end Storefront
